import Mathlib

/-!
# QtBluetooth: QLowEnergyService and LowEnergyNotificationHub

A shallow embedding of

* `src/bluetooth/qlowenergyservice.cpp` (the caller-facing service object:
  `discoverDetails`, `contains`, `readCharacteristic`, `writeCharacteristic`,
  `readDescriptor`, `writeDescriptor`, `characteristic`, `characteristics`),
* `src/bluetooth/android/lowenergynotificationhub.cpp` (the token registry
  `hubMap`, constructor and destructor of a hub, and the JNI callbacks that
  marshal transport events to a hub),
* `src/bluetooth/qlowenergydescriptor.h` (the comparison operators),
* `src/bluetooth/qlowenergycontroller_bluezdbus_p.h` (the job queue members),
  and
* `src/bluetooth/qbluetoothdevicediscoveryagent_winrt.cpp` (`registerDevice` of
  the agent and the finish conditions of the discovery worker).

Stateful C++ is rendered as explicit state passing.  A call made on the
controller (`d->controller->...`) is recorded in the controller's call log;
its completion is asynchronous and is not part of the call.  A queued
invocation (`QMetaObject::invokeMethod(..., Qt::QueuedConnection, ...)`) is
recorded in the list of posted events.
-/

namespace QtBluetooth

/-! ## Basic types -/

/-- Attribute handle (`quint16` in the source); handle 0 is the invalid handle. -/
abbrev QLowEnergyHandle := Nat

/-- UUID seen as its 128-bit value; the null UUID is 0. -/
abbrev QBluetoothUuid := Nat

/-- Byte array. -/
abbrev QByteArray := List (Fin 256)

/-- Association-list rendering of `QHash<K, V>`.  The order of `entries` is the
(arbitrary) order in which the container yields its keys. -/
structure QHash (K V : Type) where
  entries : List (K × V)
  deriving DecidableEq

namespace QHash

variable {K V : Type} [DecidableEq K]

/-- `QHash::contains(key)`. -/
def contains (h : QHash K V) (k : K) : Bool :=
  h.entries.any (fun e => decide (e.1 = k))

/-- `QHash::value(key)`: the stored value, or the default-constructed value
`dflt` when the key is absent. -/
def value (h : QHash K V) (k : K) (dflt : V) : V :=
  match h.entries.find? (fun e => decide (e.1 = k)) with
  | some e => e.2
  | none => dflt

/-- `QHash::keys()`. -/
def keys (h : QHash K V) : List K :=
  h.entries.map Prod.fst

/-- `QHash::insert(key, value)`: an existing entry for the key is replaced. -/
def insert (h : QHash K V) (k : K) (v : V) : QHash K V :=
  ⟨(k, v) :: h.entries.filter (fun e => !decide (e.1 = k))⟩

/-- `QHash::remove(key)`. -/
def remove (h : QHash K V) (k : K) : QHash K V :=
  ⟨h.entries.filter (fun e => !decide (e.1 = k))⟩

end QHash

/-! ## QLowEnergyService: data model -/

/-- `QLowEnergyService::ServiceState` (documented in qlowenergyservice.cpp). -/
inductive ServiceState where
  | InvalidService
  | DiscoveryRequired
  | DiscoveringServices
  | ServiceDiscovered
  deriving DecidableEq

/-- `QLowEnergyService::ServiceError` (documented in qlowenergyservice.cpp). -/
inductive ServiceError where
  | NoError
  | OperationError
  | CharacteristicReadError
  | CharacteristicWriteError
  | DescriptorReadError
  | DescriptorWriteError
  | UnknownError
  deriving DecidableEq

/-- `QLowEnergyService::WriteMode` (documented in qlowenergyservice.cpp). -/
inductive WriteMode where
  | WriteWithResponse
  | WriteWithoutResponse
  deriving DecidableEq

/-- Modelled from the spec: the declaration of
`QLowEnergyCharacteristic::PropertyType` is not among the sources; the spec
describes `properties` as a bitset over Read, Write, WriteNoResponse, Notify,
Indicate, ...  The bit of each flag is the one the GATT characteristic
declaration assigns to it. -/
def PropertyType.Unknown : Nat := 0x00

/-- Modelled from the spec: see `PropertyType.Unknown`. -/
def PropertyType.Broadcasting : Nat := 0x01

/-- Modelled from the spec: see `PropertyType.Unknown`. -/
def PropertyType.Read : Nat := 0x02

/-- Modelled from the spec: see `PropertyType.Unknown`. -/
def PropertyType.WriteNoResponse : Nat := 0x04

/-- Modelled from the spec: see `PropertyType.Unknown`. -/
def PropertyType.Write : Nat := 0x08

/-- Modelled from the spec: see `PropertyType.Unknown`. -/
def PropertyType.Notify : Nat := 0x10

/-- Modelled from the spec: see `PropertyType.Unknown`. -/
def PropertyType.Indicate : Nat := 0x20

/-- One call received by the controller from a service object.  The
constructors are the request methods of the controller interface
(qlowenergycontroller_dummy_p.h); `service` is the address held by the
`QSharedPointer<QLowEnergyServicePrivate>` argument. -/
inductive ControllerCall where
  | discoverServiceDetails (service : QBluetoothUuid)
  | readCharacteristic (service : Nat) (charHandle : QLowEnergyHandle)
  | readDescriptor (service : Nat) (charHandle descriptorHandle : QLowEnergyHandle)
  | writeCharacteristic (service : Nat) (charHandle : QLowEnergyHandle)
      (newValue : QByteArray) (writeWithResponse : Bool)
  | writeDescriptor (service : Nat) (charHandle descriptorHandle : QLowEnergyHandle)
      (newValue : QByteArray)
  deriving DecidableEq

/-- The controller as the service sees it: the calls it has received, oldest
first. -/
structure QLowEnergyControllerPrivate where
  calls : List ControllerCall
  deriving DecidableEq

/-- Entry of `CharData::descriptorList`. -/
structure DescData where
  uuid : QBluetoothUuid
  value : QByteArray
  deriving DecidableEq

/-- Entry of `QLowEnergyServicePrivate::characteristicList`. -/
structure CharData where
  uuid : QBluetoothUuid
  properties : Nat
  value : QByteArray
  descriptorList : QHash QLowEnergyHandle DescData
  deriving DecidableEq

/-- The shared private data of a service, with the members that
qlowenergyservice.cpp reads and writes.  `controller` is the pointee of the
`QPointer` of the same name, `none` when the pointer is null. -/
structure QLowEnergyServicePrivate where
  uuid : QBluetoothUuid
  includedServices : List QBluetoothUuid
  type : Nat
  state : ServiceState
  lastError : ServiceError
  characteristicList : QHash QLowEnergyHandle CharData
  controller : Option QLowEnergyControllerPrivate
  deriving DecidableEq

/-- Private data of a characteristic object (`characteristic.data`). -/
structure QLowEnergyCharacteristicPrivate where
  handle : QLowEnergyHandle
  deriving DecidableEq

/-- A characteristic object: `d_ptr` is the address of the service data it
refers to (`none` for a null shared pointer), `data` its private data (`none`
for a null pointer). -/
structure QLowEnergyCharacteristic where
  d_ptr : Option Nat
  data : Option QLowEnergyCharacteristicPrivate
  deriving DecidableEq

/-- Private data of a descriptor object (`descriptor.data`). -/
structure QLowEnergyDescriptorPrivate where
  charHandle : QLowEnergyHandle
  descHandle : QLowEnergyHandle
  deriving DecidableEq

/-- A descriptor object, see `QLowEnergyCharacteristic`. -/
structure QLowEnergyDescriptor where
  d_ptr : Option Nat
  data : Option QLowEnergyDescriptorPrivate
  deriving DecidableEq

/-- A service object: the address held by its `d_ptr` and the data found there.
Service objects of the same remote service hold the same address. -/
structure QLowEnergyService where
  d_ptr : Nat
  d : QLowEnergyServicePrivate
  deriving DecidableEq

/-! ## QLowEnergyService: operations -/

/-- Modelled from the spec: `QLowEnergyServicePrivate::setError` is not among
the sources; `error()` "returns the last occurred error", so setting an error
stores it as the last error. -/
def QLowEnergyServicePrivate.setError (d : QLowEnergyServicePrivate)
    (newError : ServiceError) : QLowEnergyServicePrivate :=
  { d with lastError := newError }

/-- Modelled from the spec: `QLowEnergyServicePrivate::setState` is not among
the sources; `state()` returns the stored state, so setting a state stores
it. -/
def QLowEnergyServicePrivate.setState (d : QLowEnergyServicePrivate)
    (newState : ServiceState) : QLowEnergyServicePrivate :=
  { d with state := newState }

/-- The controller receives one more call. -/
def QLowEnergyControllerPrivate.receive (c : QLowEnergyControllerPrivate)
    (call : ControllerCall) : QLowEnergyControllerPrivate :=
  { c with calls := c.calls ++ [call] }

/-- Modelled from the spec: `QLowEnergyCharacteristic::attributeHandle` is not
among the sources; handle 0 is reserved as invalid/unassigned, and is what an
object without service data or private data reports. -/
def QLowEnergyCharacteristic.attributeHandle (c : QLowEnergyCharacteristic) :
    QLowEnergyHandle :=
  match c.d_ptr, c.data with
  | some _, some p => p.handle
  | _, _ => 0

/-- Modelled from the spec: `QLowEnergyCharacteristic::properties` is not among
the sources; the accessor mirrors the property bitset that the service data
`pointee` (the data `c.d_ptr` refers to) records for the characteristic, and is
`Unknown` when there is no such record. -/
def QLowEnergyCharacteristic.properties (c : QLowEnergyCharacteristic)
    (pointee : QLowEnergyServicePrivate) : Nat :=
  match c.d_ptr, c.data with
  | some _, some _ =>
    match pointee.characteristicList.entries.find?
        (fun e => decide (e.1 = c.attributeHandle)) with
    | some e => e.2.properties
    | none => PropertyType.Unknown
  | _, _ => PropertyType.Unknown

/-- Modelled from the spec: `QLowEnergyDescriptor::characteristicHandle` is not
among the sources; see `QLowEnergyCharacteristic.attributeHandle`. -/
def QLowEnergyDescriptor.characteristicHandle (x : QLowEnergyDescriptor) :
    QLowEnergyHandle :=
  match x.d_ptr, x.data with
  | some _, some p => p.charHandle
  | _, _ => 0

/-- Modelled from the spec: `QLowEnergyDescriptor::handle` is not among the
sources; see `QLowEnergyCharacteristic.attributeHandle`. -/
def QLowEnergyDescriptor.handle (x : QLowEnergyDescriptor) : QLowEnergyHandle :=
  match x.d_ptr, x.data with
  | some _, some p => p.descHandle
  | _, _ => 0

namespace QLowEnergyService

/-- `QLowEnergyService::state()`. -/
def state (s : QLowEnergyService) : ServiceState := s.d.state

/-- `QLowEnergyService::error()`. -/
def error (s : QLowEnergyService) : ServiceError := s.d.lastError

/-- The calls the attached controller has received so far (none when no
controller is attached). -/
def controllerCalls (s : QLowEnergyService) : List ControllerCall :=
  match s.d.controller with
  | some c => c.calls
  | none => []

/-- `d->controller->call(...)` on an attached controller. -/
def callController (s : QLowEnergyService) (c : QLowEnergyControllerPrivate)
    (call : ControllerCall) : QLowEnergyService :=
  { s with d := { s.d with controller := some (c.receive call) } }

/-- `QLowEnergyService::discoverDetails()`. -/
def discoverDetails (s : QLowEnergyService) : QLowEnergyService :=
  if s.d.controller.isNone || s.d.state = .InvalidService then
    { s with d := s.d.setError .OperationError }
  else if s.d.state ≠ .DiscoveryRequired then
    s
  else
    let s1 : QLowEnergyService := { s with d := s.d.setState .DiscoveringServices }
    match s1.d.controller with
    | some c => s1.callController c (.discoverServiceDetails s1.d.uuid)
    | none => s1

/-- `QLowEnergyService::contains(const QLowEnergyCharacteristic &)`. -/
def contains (s : QLowEnergyService) (characteristic : QLowEnergyCharacteristic) : Bool :=
  if characteristic.d_ptr.isNone || characteristic.data.isNone then
    false
  else if decide (some s.d_ptr = characteristic.d_ptr)
      && s.d.characteristicList.contains characteristic.attributeHandle then
    true
  else
    false

/-- `QLowEnergyService::readCharacteristic`.  The source ends in `//TODO` once
the checks have passed. -/
def readCharacteristic (s : QLowEnergyService)
    (characteristic : QLowEnergyCharacteristic) : QLowEnergyService :=
  if !s.contains characteristic then
    s
  else if s.state ≠ .ServiceDiscovered || s.d.controller.isNone then
    { s with d := s.d.setError .OperationError }
  else
    s

/-- `QLowEnergyService::writeCharacteristic`.  After the state check the source
sets the error and goes on; `characteristic.properties()` is read from this
service's data, which is what `characteristic.d_ptr` refers to once `contains`
has passed. -/
def writeCharacteristic (s : QLowEnergyService)
    (characteristic : QLowEnergyCharacteristic) (newValue : QByteArray)
    (mode : WriteMode) : QLowEnergyService :=
  if !s.contains characteristic then
    s
  else
    let s1 : QLowEnergyService :=
      if s.state ≠ .ServiceDiscovered then
        { s with d := s.d.setError .OperationError }
      else s
    match s1.d.controller with
    | none => s1
    | some c =>
      if mode = .WriteWithResponse
          && (characteristic.properties s1.d &&& PropertyType.Write) != 0 then
        s1.callController c
          (.writeCharacteristic s1.d_ptr characteristic.attributeHandle newValue true)
      else if mode = .WriteWithoutResponse
          && (characteristic.properties s1.d &&& PropertyType.WriteNoResponse) != 0 then
        s1.callController c
          (.writeCharacteristic s1.d_ptr characteristic.attributeHandle newValue false)
      else
        { s1 with d := s1.d.setError .OperationError }

/-- `QLowEnergyService::contains(const QLowEnergyDescriptor &)`. -/
def containsDescriptor (s : QLowEnergyService) (descriptor : QLowEnergyDescriptor) : Bool :=
  if descriptor.d_ptr.isNone || descriptor.data.isNone then
    false
  else
    let charHandle := descriptor.characteristicHandle
    if charHandle = 0 then
      false
    else if decide (some s.d_ptr = descriptor.d_ptr)
        && s.d.characteristicList.contains charHandle
        && (s.d.characteristicList.value charHandle
              ⟨0, 0, [], ⟨[]⟩⟩).descriptorList.contains descriptor.handle then
      true
    else
      false

/-- `QLowEnergyService::readDescriptor`.  The source ends in a `//TODO` once
the checks have passed. -/
def readDescriptor (s : QLowEnergyService) (descriptor : QLowEnergyDescriptor) :
    QLowEnergyService :=
  if !s.containsDescriptor descriptor then
    s
  else if s.state ≠ .ServiceDiscovered || s.d.controller.isNone then
    { s with d := s.d.setError .OperationError }
  else
    s

/-- `QLowEnergyService::writeDescriptor`. -/
def writeDescriptor (s : QLowEnergyService) (descriptor : QLowEnergyDescriptor)
    (newValue : QByteArray) : QLowEnergyService :=
  if !s.containsDescriptor descriptor then
    s
  else if s.state ≠ .ServiceDiscovered || s.d.controller.isNone then
    { s with d := s.d.setError .OperationError }
  else
    match s.d.controller with
    | some c =>
      s.callController c
        (.writeDescriptor s.d_ptr descriptor.characteristicHandle descriptor.handle
          newValue)
    | none => s

end QLowEnergyService

/-! ## LowEnergyNotificationHub -/

/-- A Java object reference received through JNI: the reference itself, the
text `QJniObject(obj).toString()` yields, and the `QBluetoothUuid` that Qt
constructs from that text (the null UUID 0 when the text is not a UUID). -/
structure JObject where
  ref : Nat
  toString : String
  uuid : QBluetoothUuid
  deriving DecidableEq

/-- A `jbyteArray` argument: `none` is the null reference ("empty Java byte
array is 0x0" in the source), otherwise the bytes of the array. -/
abbrev JByteArray := Option QByteArray

/-- The slot invocation queued on a hub by a callback, with its arguments in
the order of the `Q_ARG`s. -/
inductive QueuedCall where
  | connectionUpdated (newState errorCode : Int)
  | mtuChanged (mtu : Int)
  | servicesDiscovered (errorCode : Int) (uuids : String)
  | serviceDetailsDiscoveryFinished (serviceUuid : String) (startHandle endHandle : Int)
  | characteristicRead (serviceUuid : QBluetoothUuid) (handle : Int)
      (charUuid : QBluetoothUuid) (properties : Int) (payload : QByteArray)
  | descriptorRead (serviceUuid charUuid : QBluetoothUuid) (handle : Int)
      (descUuid : QBluetoothUuid) (payload : QByteArray)
  | characteristicWritten (charHandle : Int) (payload : QByteArray) (errorCode : Int)
  | descriptorWritten (descHandle : Int) (payload : QByteArray) (errorCode : Int)
  | serverDescriptorWritten (descriptor : JObject) (payload : QByteArray)
  | characteristicChanged (charHandle : Int) (payload : QByteArray)
  | serverCharacteristicChanged (characteristic : JObject) (payload : QByteArray)
  | serviceError (attributeHandle : Int) (errorCode : Int)
  | advertisementError (status : Int)
  deriving DecidableEq

/-- An event posted by `QMetaObject::invokeMethod(hub, ..., Qt::QueuedConnection,
...)`: the receiving hub (its address) and the queued slot invocation. -/
structure PostedEvent where
  receiver : Nat
  call : QueuedCall
  deriving DecidableEq

/-- The process-wide state the hub code works on: the registry `hubMap` from
token (`long`) to hub address (a pointer, 0 is `nullptr`), and the events
posted so far, oldest first.  Every callback takes the lock around its lookup
only; a callback that runs without interruption is rendered as one step, and
`connectionChange_locked` and `connectionChange_unlocked` give the two parts of
one callback on either side of `lock.unlock()`. -/
structure HubWorld where
  hubMap : QHash Int Nat
  posted : List PostedEvent
  deriving DecidableEq

/-- The Java object `jBluetoothLe` of a hub: whether the reference is valid, and
its Java field `qtObject`. -/
structure JBluetoothLe where
  isValid : Bool
  qtObject : Int
  deriving DecidableEq

/-- A hub object: its address (`this`), its member `javaToCtoken` and its Java
object. -/
structure LowEnergyNotificationHub where
  addr : Nat
  javaToCtoken : Int
  jBluetoothLe : JBluetoothLe
  deriving DecidableEq

namespace LowEnergyNotificationHub

/-- `hubMap()->value(qtObject)`: the registered hub, `nullptr` when the token is
absent. -/
def lookup (w : HubWorld) (qtObject : Int) : Nat :=
  w.hubMap.value qtObject 0

/-- `QMetaObject::invokeMethod(hub, ..., Qt::QueuedConnection, ...)`. -/
def invokeMethod (w : HubWorld) (hub : Nat) (call : QueuedCall) : HubWorld :=
  { w with posted := w.posted ++ [⟨hub, call⟩] }

/-- JNI `GetArrayLength`. -/
def GetArrayLength (array : QByteArray) : Nat := array.length

/-- JNI `GetByteArrayRegion(array, start, len, buf)`: the `len` bytes of the
array from index `start` on, as they are written to the buffer. -/
def GetByteArrayRegion (array : QByteArray) (start len : Nat) : QByteArray :=
  (array.drop start).take len

/-- The copy of a `jbyteArray` into the `QByteArray payload`: for a non-null
reference the payload is resized to the length of the array and filled with the
region from index 0 of that length; for the null reference it stays empty. -/
def payloadOf (data : JByteArray) : QByteArray :=
  match data with
  | some array =>
    let length := GetArrayLength array
    GetByteArrayRegion array 0 length
  | none => []

/-- `LowEnergyNotificationHub::lowEnergy_connectionChange`. -/
def lowEnergy_connectionChange (w : HubWorld) (qtObject : Int)
    (errorCode newState : Int) : HubWorld :=
  let hub := lookup w qtObject
  if hub = 0 then w
  else invokeMethod w hub (.connectionUpdated newState errorCode)

/-- `LowEnergyNotificationHub::lowEnergy_mtuChanged`. -/
def lowEnergy_mtuChanged (w : HubWorld) (qtObject : Int) (mtu : Int) : HubWorld :=
  let hub := lookup w qtObject
  if hub = 0 then w
  else invokeMethod w hub (.mtuChanged mtu)

/-- `LowEnergyNotificationHub::lowEnergy_servicesDiscovered`. -/
def lowEnergy_servicesDiscovered (w : HubWorld) (qtObject : Int) (errorCode : Int)
    (uuidList : JObject) : HubWorld :=
  let hub := lookup w qtObject
  if hub = 0 then w
  else invokeMethod w hub (.servicesDiscovered errorCode uuidList.toString)

/-- `LowEnergyNotificationHub::lowEnergy_serviceDetailsDiscovered`. -/
def lowEnergy_serviceDetailsDiscovered (w : HubWorld) (qtObject : Int) (uuid : JObject)
    (startHandle endHandle : Int) : HubWorld :=
  let hub := lookup w qtObject
  if hub = 0 then w
  else invokeMethod w hub
    (.serviceDetailsDiscoveryFinished uuid.toString startHandle endHandle)

/-- `LowEnergyNotificationHub::lowEnergy_characteristicRead`. -/
def lowEnergy_characteristicRead (w : HubWorld) (qtObject : Int) (sUuid : JObject)
    (handle : Int) (cUuid : JObject) (properties : Int) (data : JByteArray) : HubWorld :=
  let hub := lookup w qtObject
  if hub = 0 then w
  else
    let serviceUuid := sUuid.uuid
    if serviceUuid = 0 then w
    else
      let charUuid := cUuid.uuid
      if charUuid = 0 then w
      else
        invokeMethod w hub
          (.characteristicRead serviceUuid handle charUuid properties (payloadOf data))

/-- `LowEnergyNotificationHub::lowEnergy_descriptorRead`. -/
def lowEnergy_descriptorRead (w : HubWorld) (qtObject : Int) (sUuid cUuid : JObject)
    (handle : Int) (dUuid : JObject) (data : JByteArray) : HubWorld :=
  let hub := lookup w qtObject
  if hub = 0 then w
  else
    let serviceUuid := sUuid.uuid
    if serviceUuid = 0 then w
    else
      let charUuid := cUuid.uuid
      let descUuid := dUuid.uuid
      if charUuid = 0 || descUuid = 0 then w
      else
        invokeMethod w hub
          (.descriptorRead serviceUuid charUuid handle descUuid (payloadOf data))

/-- `LowEnergyNotificationHub::lowEnergy_characteristicWritten`. -/
def lowEnergy_characteristicWritten (w : HubWorld) (qtObject : Int) (charHandle : Int)
    (data : JByteArray) (errorCode : Int) : HubWorld :=
  let hub := lookup w qtObject
  if hub = 0 then w
  else invokeMethod w hub (.characteristicWritten charHandle (payloadOf data) errorCode)

/-- `LowEnergyNotificationHub::lowEnergy_descriptorWritten`. -/
def lowEnergy_descriptorWritten (w : HubWorld) (qtObject : Int) (descHandle : Int)
    (data : JByteArray) (errorCode : Int) : HubWorld :=
  let hub := lookup w qtObject
  if hub = 0 then w
  else invokeMethod w hub (.descriptorWritten descHandle (payloadOf data) errorCode)

/-- `LowEnergyNotificationHub::lowEnergy_serverDescriptorWritten`. -/
def lowEnergy_serverDescriptorWritten (w : HubWorld) (qtObject : Int)
    (descriptor : JObject) (newValue : JByteArray) : HubWorld :=
  let hub := lookup w qtObject
  if hub = 0 then w
  else invokeMethod w hub (.serverDescriptorWritten descriptor (payloadOf newValue))

/-- `LowEnergyNotificationHub::lowEnergy_characteristicChanged`. -/
def lowEnergy_characteristicChanged (w : HubWorld) (qtObject : Int) (charHandle : Int)
    (data : JByteArray) : HubWorld :=
  let hub := lookup w qtObject
  if hub = 0 then w
  else invokeMethod w hub (.characteristicChanged charHandle (payloadOf data))

/-- `LowEnergyNotificationHub::lowEnergy_serverCharacteristicChanged`. -/
def lowEnergy_serverCharacteristicChanged (w : HubWorld) (qtObject : Int)
    (characteristic : JObject) (newValue : JByteArray) : HubWorld :=
  let hub := lookup w qtObject
  if hub = 0 then w
  else invokeMethod w hub
    (.serverCharacteristicChanged characteristic (payloadOf newValue))

/-- `LowEnergyNotificationHub::lowEnergy_serviceError`. -/
def lowEnergy_serviceError (w : HubWorld) (qtObject : Int) (attributeHandle : Int)
    (errorCode : Int) : HubWorld :=
  let hub := lookup w qtObject
  if hub = 0 then w
  else invokeMethod w hub (.serviceError attributeHandle errorCode)

/-- `LowEnergyNotificationHub::lowEnergy_advertisementError`. -/
def lowEnergy_advertisementError (w : HubWorld) (qtObject : Int) (status : Int) :
    HubWorld :=
  let hub := lookup w qtObject
  if hub = 0 then w
  else invokeMethod w hub (.advertisementError status)

/-- The `while (true)` loop of the constructor.  `draws` are the values that the
successive calls of `QRandomGenerator::global()->generate()` return (`quint32`,
stored in the `long` member); the loop ends with the first one that is not in
the registry, and has not ended (`none`) while every draw so far is
registered. -/
def drawToken (hubMap : QHash Int Nat) : List Nat → Option Int
  | [] => none
  | r :: rest =>
    let javaToCtoken : Int := Int.ofNat (r % 4294967296)
    if !hubMap.contains javaToCtoken then some javaToCtoken
    else drawToken hubMap rest

/-- `LowEnergyNotificationHub::LowEnergyNotificationHub`: `this` is the address
of the new hub, `jBluetoothLe` the Java object that was created for it.  The
result is the world and the hub after construction, `none` while the token loop
has not ended. -/
def construct (w : HubWorld) (this : Nat) (jBluetoothLe : JBluetoothLe)
    (draws : List Nat) : Option (HubWorld × LowEnergyNotificationHub) :=
  if !jBluetoothLe.isValid then
    some (w, ⟨this, 0, jBluetoothLe⟩)
  else
    match drawToken w.hubMap draws with
    | none => none
    | some javaToCtoken =>
      some ({ w with hubMap := w.hubMap.insert javaToCtoken this },
            ⟨this, javaToCtoken, { jBluetoothLe with qtObject := javaToCtoken }⟩)

/-- `LowEnergyNotificationHub::~LowEnergyNotificationHub`. -/
def destroy (w : HubWorld) (hub : LowEnergyNotificationHub) : HubWorld :=
  { w with hubMap := w.hubMap.remove hub.javaToCtoken }

/-- The part of `lowEnergy_connectionChange` between `lock.lockForRead()` and
`lock.unlock()`: the lookup of the hub pointer. -/
def connectionChange_locked (w : HubWorld) (qtObject : Int) : Nat :=
  lookup w qtObject

/-- The part of `lowEnergy_connectionChange` after `lock.unlock()`: the null
check and the `invokeMethod` on the pointer `hub` that was looked up, run in the
world as it is by then. -/
def connectionChange_unlocked (w : HubWorld) (hub : Nat) (errorCode newState : Int) :
    HubWorld :=
  if hub = 0 then w
  else invokeMethod w hub (.connectionUpdated newState errorCode)

end LowEnergyNotificationHub

/-- One invocation of a native callback by the Java side, with its arguments in
the order of the C++ signature (`JNIEnv *` and the receiver `jobject` left
out). -/
inductive HubCallback where
  | connectionChange (qtObject : Int) (errorCode newState : Int)
  | mtuChanged (qtObject : Int) (mtu : Int)
  | servicesDiscovered (qtObject : Int) (errorCode : Int) (uuidList : JObject)
  | serviceDetailsDiscovered (qtObject : Int) (uuid : JObject)
      (startHandle endHandle : Int)
  | characteristicRead (qtObject : Int) (sUuid : JObject) (handle : Int)
      (cUuid : JObject) (properties : Int) (data : JByteArray)
  | descriptorRead (qtObject : Int) (sUuid cUuid : JObject) (handle : Int)
      (dUuid : JObject) (data : JByteArray)
  | characteristicWritten (qtObject : Int) (charHandle : Int) (data : JByteArray)
      (errorCode : Int)
  | descriptorWritten (qtObject : Int) (descHandle : Int) (data : JByteArray)
      (errorCode : Int)
  | serverDescriptorWritten (qtObject : Int) (descriptor : JObject)
      (newValue : JByteArray)
  | characteristicChanged (qtObject : Int) (charHandle : Int) (data : JByteArray)
  | serverCharacteristicChanged (qtObject : Int) (characteristic : JObject)
      (newValue : JByteArray)
  | serviceError (qtObject : Int) (attributeHandle : Int) (errorCode : Int)
  | advertisementError (qtObject : Int) (status : Int)
  deriving DecidableEq

/-- The token (`jlong qtObject`) a callback invocation carries. -/
def HubCallback.qtObject : HubCallback → Int
  | .connectionChange t _ _ => t
  | .mtuChanged t _ => t
  | .servicesDiscovered t _ _ => t
  | .serviceDetailsDiscovered t _ _ _ => t
  | .characteristicRead t _ _ _ _ _ => t
  | .descriptorRead t _ _ _ _ _ => t
  | .characteristicWritten t _ _ _ => t
  | .descriptorWritten t _ _ _ => t
  | .serverDescriptorWritten t _ _ => t
  | .characteristicChanged t _ _ => t
  | .serverCharacteristicChanged t _ _ => t
  | .serviceError t _ _ => t
  | .advertisementError t _ => t

section Deliver

open LowEnergyNotificationHub

/-- Running one callback invocation: the native method of that kind is called
with the arguments of the invocation. -/
def HubWorld.deliver (w : HubWorld) : HubCallback → HubWorld
  | .connectionChange t e n => lowEnergy_connectionChange w t e n
  | .mtuChanged t m => lowEnergy_mtuChanged w t m
  | .servicesDiscovered t e l => lowEnergy_servicesDiscovered w t e l
  | .serviceDetailsDiscovered t u a b => lowEnergy_serviceDetailsDiscovered w t u a b
  | .characteristicRead t s h c p d => lowEnergy_characteristicRead w t s h c p d
  | .descriptorRead t s c h u d => lowEnergy_descriptorRead w t s c h u d
  | .characteristicWritten t h d e => lowEnergy_characteristicWritten w t h d e
  | .descriptorWritten t h d e => lowEnergy_descriptorWritten w t h d e
  | .serverDescriptorWritten t o v => lowEnergy_serverDescriptorWritten w t o v
  | .characteristicChanged t h d => lowEnergy_characteristicChanged w t h d
  | .serverCharacteristicChanged t o v => lowEnergy_serverCharacteristicChanged w t o v
  | .serviceError t h e => lowEnergy_serviceError w t h e
  | .advertisementError t s => lowEnergy_advertisementError w t s

end Deliver

/-- Whether one of the UUIDs that `lowEnergy_characteristicRead` and
`lowEnergy_descriptorRead` test with `isNull()` is null; the other callbacks
test none. -/
def HubCallback.hasNullUuid : HubCallback → Bool
  | .characteristicRead _ sUuid _ cUuid _ _ => sUuid.uuid = 0 || cUuid.uuid = 0
  | .descriptorRead _ sUuid cUuid _ dUuid _ =>
    sUuid.uuid = 0 || cUuid.uuid = 0 || dUuid.uuid = 0
  | _ => false

/-- The world after a sequence of callback invocations, run from left to
right. -/
def HubWorld.deliverAll (w : HubWorld) (cbs : List HubCallback) : HubWorld :=
  cbs.foldl HubWorld.deliver w

/-- One thing that happens to the registry and the hubs: a callback invocation,
the destruction of a hub, or the construction of a hub at address `this` with
the Java object `jBluetoothLe` while the random source yields `draws`. -/
inductive HubEvent where
  | callback (cb : HubCallback)
  | destroyed (hub : LowEnergyNotificationHub)
  | constructed (this : Nat) (jBluetoothLe : JBluetoothLe) (draws : List Nat)
  deriving DecidableEq

/-- The world after one event.  A construction whose token loop has not ended
has not touched the registry. -/
def HubWorld.step (w : HubWorld) : HubEvent → HubWorld
  | .callback cb => w.deliver cb
  | .destroyed hub => LowEnergyNotificationHub.destroy w hub
  | .constructed this jBluetoothLe draws =>
    match LowEnergyNotificationHub.construct w this jBluetoothLe draws with
    | some (w1, _) => w1
    | none => w

/-- The world after a sequence of events, run from left to right. -/
def HubWorld.run (w : HubWorld) (events : List HubEvent) : HubWorld :=
  events.foldl HubWorld.step w

/-- Whether the event is a construction that registers a hub under the token
`t`. -/
def HubWorld.registersUnder (w : HubWorld) (t : Int) : HubEvent → Bool
  | .constructed this jBluetoothLe draws =>
    match LowEnergyNotificationHub.construct w this jBluetoothLe draws with
    | some (_, hub) => jBluetoothLe.isValid && decide (hub.javaToCtoken = t)
    | none => false
  | _ => false

/-- Whether, in the course of the events, a construction registers a hub under
the token `t`. -/
def HubWorld.reissues (w : HubWorld) (t : Int) : List HubEvent → Bool
  | [] => false
  | ev :: rest => w.registersUnder t ev || (w.step ev).reissues t rest

/-! ## Sequences of service calls -/

/-- One call made on a service object by its user. -/
inductive ServiceCall where
  | discoverDetails
  | readCharacteristic (characteristic : QLowEnergyCharacteristic)
  | writeCharacteristic (characteristic : QLowEnergyCharacteristic)
      (newValue : QByteArray) (mode : WriteMode)
  | readDescriptor (descriptor : QLowEnergyDescriptor)
  | writeDescriptor (descriptor : QLowEnergyDescriptor) (newValue : QByteArray)
  deriving DecidableEq

/-- The service after one call. -/
def QLowEnergyService.perform (s : QLowEnergyService) : ServiceCall → QLowEnergyService
  | .discoverDetails => s.discoverDetails
  | .readCharacteristic c => s.readCharacteristic c
  | .writeCharacteristic c v m => s.writeCharacteristic c v m
  | .readDescriptor x => s.readDescriptor x
  | .writeDescriptor x v => s.writeDescriptor x v

/-- The service after a sequence of calls, made from left to right. -/
def QLowEnergyService.performAll (s : QLowEnergyService) (calls : List ServiceCall) :
    QLowEnergyService :=
  calls.foldl QLowEnergyService.perform s

/-- One write call made on a service object by its user. -/
inductive WriteCall where
  | characteristic (characteristic : QLowEnergyCharacteristic) (newValue : QByteArray)
      (mode : WriteMode)
  | descriptor (descriptor : QLowEnergyDescriptor) (newValue : QByteArray)
  deriving DecidableEq

/-- A write call as a service call. -/
def WriteCall.toServiceCall : WriteCall → ServiceCall
  | .characteristic c v m => .writeCharacteristic c v m
  | .descriptor x v => .writeDescriptor x v

/-- The target of the write call belongs to the service and, for a
characteristic, its properties have the bit that the write mode asks for. -/
def WriteCall.permitted (s : QLowEnergyService) : WriteCall → Bool
  | .characteristic c _ .WriteWithResponse =>
    s.contains c && (c.properties s.d &&& PropertyType.Write) != 0
  | .characteristic c _ .WriteWithoutResponse =>
    s.contains c && (c.properties s.d &&& PropertyType.WriteNoResponse) != 0
  | .descriptor x _ => s.containsDescriptor x

/-- The write request that carries the handles and the value of a write call
made on the service at address `service`. -/
def WriteCall.request (service : Nat) : WriteCall → ControllerCall
  | .characteristic c v .WriteWithResponse =>
    .writeCharacteristic service c.attributeHandle v true
  | .characteristic c v .WriteWithoutResponse =>
    .writeCharacteristic service c.attributeHandle v false
  | .descriptor x v => .writeDescriptor service x.characteristicHandle x.handle v

/-! ## The GATT job queue of the controller -/

/-- `QLowEnergyControllerPrivateBluezDBus::GattJob`
(qlowenergycontroller_bluezdbus_p.h): `flags` is the `JobFlags` value, `service`
the address held by the shared pointer. -/
structure GattJob where
  flags : Nat
  handle : QLowEnergyHandle
  value : QByteArray
  writeMode : WriteMode
  service : Nat
  deriving DecidableEq

/-- What the transport sees of the queue: a request handed to it, and the
completion of the request in flight having been handled. -/
inductive TransportEvent where
  | request (job : GattJob)
  | completion
  deriving DecidableEq

/-- Modelled from the spec: the header declares the members `jobs` and
`jobPending` (initially `false`), the functions working on them are not among
the sources.  The spec describes an "ordered queue of pending GATT operations
with at-most-one-in-flight execution discipline"; `transport` records what the
transport has seen, oldest first. -/
structure JobQueue where
  jobs : List GattJob
  jobPending : Bool
  transport : List TransportEvent
  deriving DecidableEq

/-- Modelled from the spec: the queue of a new controller, no job queued and
none in flight. -/
def JobQueue.initial : JobQueue := ⟨[], false, []⟩

/-- Modelled from the spec: "dispatches the job to the transport"; the job is
in flight from then on. -/
def JobQueue.dispatch (q : JobQueue) (job : GattJob) : JobQueue :=
  { q with jobPending := true, transport := q.transport ++ [.request job] }

/-- Modelled from the spec: `enqueue(job)` "appends to the tail; if the queue
was empty and no job is in flight, immediately dispatches the new job to the
transport". -/
def JobQueue.enqueue (q : JobQueue) (job : GattJob) : JobQueue :=
  let q1 : JobQueue := { q with jobs := q.jobs ++ [job] }
  if q.jobs.isEmpty && !q.jobPending then q1.dispatch job else q1

/-- Modelled from the spec: `on_completed(result)`, for the completion of the
job in flight, "pops the completed job, applies its result to the
AttributeTable/state, and if the queue is non-empty, dispatches the next job"
(the result does not touch the queue and is left out). -/
def JobQueue.on_completed (q : JobQueue) : JobQueue :=
  let q1 : JobQueue :=
    { q with jobs := q.jobs.tail, jobPending := false,
             transport := q.transport ++ [.completion] }
  match q1.jobs with
  | [] => q1
  | next :: _ => q1.dispatch next

/-- Modelled from the spec: the states the queue can reach.  It starts empty,
jobs are enqueued at any time, and `on_completed` is "called when the transport
reports completion of the currently in-flight job", that is, only while a job
is in flight. -/
inductive JobQueue.Reachable : JobQueue → Prop where
  | initial : JobQueue.Reachable JobQueue.initial
  | enqueue (q : JobQueue) (job : GattJob) :
      JobQueue.Reachable q → JobQueue.Reachable (q.enqueue job)
  | on_completed (q : JobQueue) :
      JobQueue.Reachable q → q.jobPending = true → JobQueue.Reachable q.on_completed

/-- Reading a transport log from the start: `some b` when no request was handed
over while another one was in flight and no completion was handled with none in
flight, where `b` tells whether a request is in flight at the end; `none`
otherwise. -/
def inFlightAfter (log : List TransportEvent) : Option Bool :=
  log.foldl
    (fun st ev =>
      match st, ev with
      | some false, .request _ => some true
      | some true, .completion => some false
      | _, _ => none)
    (some false)

/-- At most one request is in flight at every point of the transport log. -/
def singleFlight (log : List TransportEvent) : Bool :=
  (inFlightAfter log).isSome

/-! ## QLowEnergyService: accessors -/

/-- Modelled from the spec: the constructor `QLowEnergyCharacteristic(p, handle)`
is not among the sources; a characteristic is identified by the service data it
belongs to and its attribute handle, and the constructor yields the object for
the service data at address `p` and the handle `handle`. -/
def QLowEnergyCharacteristic.ofHandle (p : Nat) (handle : QLowEnergyHandle) :
    QLowEnergyCharacteristic :=
  ⟨some p, some ⟨handle⟩⟩

/-- Modelled from the spec: the default constructor `QLowEnergyCharacteristic()`
is not among the sources; it yields the invalid characteristic, with no service
data and no private data. -/
def QLowEnergyCharacteristic.invalid : QLowEnergyCharacteristic := ⟨none, none⟩

/-- Modelled from the spec: `QLowEnergyCharacteristic::uuid` is not among the
sources; the accessor mirrors the UUID that the service data `pointee` (the data
`c.d_ptr` refers to) records for the characteristic, and is the null UUID when
there is no such record. -/
def QLowEnergyCharacteristic.uuid (c : QLowEnergyCharacteristic)
    (pointee : QLowEnergyServicePrivate) : QBluetoothUuid :=
  match c.d_ptr, c.data with
  | some _, some _ =>
    match pointee.characteristicList.entries.find?
        (fun e => decide (e.1 = c.attributeHandle)) with
    | some e => e.2.uuid
    | none => 0
  | _, _ => 0

/-- `QLowEnergyService::characteristic(const QBluetoothUuid &)`: the loop over
`characteristicList.keys()` returns at the first handle whose entry has the
UUID. -/
def QLowEnergyService.characteristic (s : QLowEnergyService) (uuid : QBluetoothUuid) :
    QLowEnergyCharacteristic :=
  match s.d.characteristicList.keys.find?
      (fun handle =>
        decide ((s.d.characteristicList.value handle ⟨0, 0, [], ⟨[]⟩⟩).uuid = uuid)) with
  | some handle => QLowEnergyCharacteristic.ofHandle s.d_ptr handle
  | none => QLowEnergyCharacteristic.invalid

/-- `QLowEnergyService::characteristics()`.  `std::sort` puts the handles in
ascending order; on handles every sorting procedure has the same result, and
insertion sort stands for it. -/
def QLowEnergyService.characteristics (s : QLowEnergyService) :
    List QLowEnergyCharacteristic :=
  let handles := s.d.characteristicList.keys
  let handles := handles.insertionSort (fun a b => a ≤ b)
  handles.map (fun handle => QLowEnergyCharacteristic.ofHandle s.d_ptr handle)

/-- `operator==` of `QLowEnergyDescriptor` (qlowenergydescriptor.h).  The static
function `equals` is declared there and defined outside the sources; it is a
parameter. -/
def QLowEnergyDescriptor.operatorEq
    (equals : QLowEnergyDescriptor → QLowEnergyDescriptor → Bool)
    (a b : QLowEnergyDescriptor) : Bool :=
  equals a b

/-- `operator!=` of `QLowEnergyDescriptor` (qlowenergydescriptor.h), see
`QLowEnergyDescriptor.operatorEq`. -/
def QLowEnergyDescriptor.operatorNe
    (equals : QLowEnergyDescriptor → QLowEnergyDescriptor → Bool)
    (a b : QLowEnergyDescriptor) : Bool :=
  !equals a b

/-! ## QBluetoothDeviceDiscoveryAgentPrivate (WinRT): registerDevice -/

/-- Modelled from the spec: the declaration of
`QBluetoothDeviceInfo::CoreConfiguration` is not among the sources (the spec
leaves device discovery out); the value is the one of the public header of the
class.  No result depends on it. -/
def BaseRateAndLowEnergyCoreConfiguration : Nat := 0x03

/-- The members of `QBluetoothDeviceInfoPrivate` (qbluetoothdeviceinfo_p.h) that
registerDevice reads and writes; the address is the 48-bit value. -/
structure QBluetoothDeviceInfo where
  address : Nat
  name : String
  serviceUuids : List QBluetoothUuid
  deviceCoreConfiguration : Nat
  deriving DecidableEq

/-- A signal emitted by the discovery agent. -/
inductive AgentSignal where
  | deviceDiscovered (info : QBluetoothDeviceInfo)
  deriving DecidableEq

/-- The members of `QBluetoothDeviceDiscoveryAgentPrivate` that registerDevice
works on, and the signals emitted so far, oldest first. -/
structure QBluetoothDeviceDiscoveryAgentPrivate where
  discoveredDevices : List QBluetoothDeviceInfo
  emitted : List AgentSignal
  deriving DecidableEq

/-- The body of the `if (iter->address() == info.address())` block of
registerDevice, applied to the entry `iter` points to.  `QSet` is rendered by
the list of the distinct elements; `count()` of the set is its length. -/
def mergeInto (iter info : QBluetoothDeviceInfo) : QBluetoothDeviceInfo :=
  let uuids := iter.serviceUuids ++ info.serviceUuids
  let uuidSet := uuids.dedup
  let iter1 : QBluetoothDeviceInfo :=
    if iter.serviceUuids.length ≠ uuidSet.length then
      { iter with serviceUuids := uuidSet }
    else iter
  if iter1.deviceCoreConfiguration ≠ info.deviceCoreConfiguration then
    { iter1 with deviceCoreConfiguration := BaseRateAndLowEnergyCoreConfiguration }
  else iter1

/-- The `for` loop of registerDevice over `discoveredDevices`: `some` list when an
entry with the address of `info` was found (and merged, at which point the
function returns), `none` when the loop ran to the end. -/
def registerLoop (info : QBluetoothDeviceInfo) :
    List QBluetoothDeviceInfo → Option (List QBluetoothDeviceInfo)
  | [] => none
  | iter :: rest =>
    if iter.address = info.address then
      some (mergeInto iter info :: rest)
    else
      match registerLoop info rest with
      | some rest1 => some (iter :: rest1)
      | none => none

/-- `QBluetoothDeviceDiscoveryAgentPrivate::registerDevice`. -/
def QBluetoothDeviceDiscoveryAgentPrivate.registerDevice
    (a : QBluetoothDeviceDiscoveryAgentPrivate) (info : QBluetoothDeviceInfo) :
    QBluetoothDeviceDiscoveryAgentPrivate :=
  match registerLoop info a.discoveredDevices with
  | some devices => { a with discoveredDevices := devices }
  | none =>
    { a with discoveredDevices := a.discoveredDevices ++ [info],
             emitted := a.emitted ++ [.deviceDiscovered info] }

/-! ## QWinRTBluetoothDeviceDiscoveryWorker: the finish conditions -/

/-- `QBluetoothDeviceDiscoveryAgent::ClassicMethod`
(qbluetoothdevicediscoveryagent.h). -/
def ClassicMethod : Nat := 0x01

/-- `QBluetoothDeviceDiscoveryAgent::LowEnergyMethod`
(qbluetoothdevicediscoveryagent.h). -/
def LowEnergyMethod : Nat := 0x02

/-- `QWinRTBluetoothDeviceDiscoveryWorker::ClassicWatcherId`. -/
def ClassicWatcherId : Int := 1

/-- `QWinRTBluetoothDeviceDiscoveryWorker::LowEnergyWatcherId`. -/
def LowEnergyWatcherId : Int := 2

/-- What the worker does that is recorded: the signals `errorOccured` and
`scanFinished`, and the calls of `stop()`.  The signals `deviceFound` and
`deviceDataChanged` are not recorded. -/
inductive WorkerSignal where
  | errorOccured
  | stopped
  | scanFinished
  deriving DecidableEq

/-- The members of the worker that the finish conditions read, and what
surrounds them: `discoveryOperations` and `deviceFromIdOperations` count the
asynchronous operations (of startDeviceDiscovery and of
leBluetoothInfoFromDeviceIdAsync) whose completion handler is registered and
has not run yet, `leInfoFromIdRuns` counts the runs of
leBluetoothInfoFromDeviceIdAsync so far, `emitted` is the record of signals,
oldest first.  The device map and the watcher objects are left out. -/
structure QWinRTBluetoothDeviceDiscoveryWorker where
  requestedModes : Nat
  m_pendingPairedDevices : Int
  m_classicScanStarted : Bool
  m_lowEnergyScanStarted : Bool
  discoveryOperations : Nat
  deviceFromIdOperations : Nat
  leInfoFromIdRuns : Nat
  emitted : List WorkerSignal
  deriving DecidableEq

/-- One `DeviceInformation` of a discovery result, as far as the worker looks at
it: whether `GetAt`, `get_Id`, `FromIdAsync` and `put_Completed` succeed for
it. -/
structure DeviceInformation where
  getAtOk : Bool
  getIdOk : Bool
  fromIdAsyncOk : Bool
  putCompletedOk : Bool
  deriving DecidableEq

/-- The result of a device discovery operation: whether `GetResults` and
`get_Size` succeed, and the devices. -/
structure DeviceInformationCollection where
  getResultsOk : Bool
  getSizeOk : Bool
  devices : List DeviceInformation
  deriving DecidableEq

namespace QWinRTBluetoothDeviceDiscoveryWorker

/-- `emit errorOccured(error)`, as in `EMIT_WORKER_ERROR_AND_RETURN_IF_FAILED`
and `generateError`. -/
def emitError (w : QWinRTBluetoothDeviceDiscoveryWorker) :
    QWinRTBluetoothDeviceDiscoveryWorker :=
  { w with emitted := w.emitted ++ [.errorOccured] }

/-- The worker after its constructor; `factoryOk` tells whether the LE device
factory could be obtained. -/
def construct (factoryOk : Bool) : QWinRTBluetoothDeviceDiscoveryWorker :=
  let w : QWinRTBluetoothDeviceDiscoveryWorker := ⟨0, 0, false, false, 0, 0, 0, []⟩
  if !factoryOk then w.emitError else w

/-- `QWinRTBluetoothDeviceDiscoveryWorker::stop`; `watchersStopOk` tells whether
stopping the LE watcher and removing its token succeed. -/
def stop (w : QWinRTBluetoothDeviceDiscoveryWorker) (watchersStopOk : Bool) :
    QWinRTBluetoothDeviceDiscoveryWorker :=
  let w1 : QWinRTBluetoothDeviceDiscoveryWorker :=
    { w with emitted := w.emitted ++ [.stopped] }
  if !watchersStopOk then w1.emitError else w1

/-- `QWinRTBluetoothDeviceDiscoveryWorker::finishDiscovery`. -/
def finishDiscovery (w : QWinRTBluetoothDeviceDiscoveryWorker) (watchersStopOk : Bool) :
    QWinRTBluetoothDeviceDiscoveryWorker :=
  let w1 := w.stop watchersStopOk
  { w1 with emitted := w1.emitted ++ [.scanFinished] }

/-- `QWinRTBluetoothDeviceDiscoveryWorker::startDeviceDiscovery`; the three
booleans tell whether obtaining the device information statics, starting the
operation and adding the completion callback succeed. -/
def startDeviceDiscovery (w : QWinRTBluetoothDeviceDiscoveryWorker) (mode : Nat)
    (staticsOk findAllOk putCompletedOk : Bool) : QWinRTBluetoothDeviceDiscoveryWorker :=
  if !staticsOk then w.emitError
  else if mode ≠ LowEnergyMethod then w
  else if !findAllOk then w.emitError
  else if !putCompletedOk then w.emitError
  else { w with discoveryOperations := w.discoveryOperations + 1 }

/-- `QWinRTBluetoothDeviceDiscoveryWorker::setupLEDeviceWatcher`; it works on the
watcher object only, and emits an error when one of its steps fails. -/
def setupLEDeviceWatcher (w : QWinRTBluetoothDeviceDiscoveryWorker) (watcherOk : Bool) :
    QWinRTBluetoothDeviceDiscoveryWorker :=
  if !watcherOk then w.emitError else w

/-- `QWinRTBluetoothDeviceDiscoveryWorker::start`; `methods` is stored in the
`quint8` member, the booleans are the outcomes of the platform calls. -/
def start (w : QWinRTBluetoothDeviceDiscoveryWorker) (methods : Nat)
    (staticsOk findAllOk putCompletedOk watcherOk classicWatcherOk : Bool) :
    QWinRTBluetoothDeviceDiscoveryWorker :=
  let w1 : QWinRTBluetoothDeviceDiscoveryWorker := { w with requestedModes := methods % 256 }
  let w2 :=
    if w1.requestedModes &&& LowEnergyMethod ≠ 0 then
      (w1.startDeviceDiscovery LowEnergyMethod staticsOk findAllOk
        putCompletedOk).setupLEDeviceWatcher watcherOk
    else w1
  if w2.requestedModes &&& ClassicMethod ≠ 0 then
    if classicWatcherOk then { w2 with m_classicScanStarted := true }
    else w2.emitError
  else w2

/-- `QWinRTBluetoothDeviceDiscoveryWorker::leBluetoothInfoFromDeviceIdAsync`. -/
def leBluetoothInfoFromDeviceIdAsync (w : QWinRTBluetoothDeviceDiscoveryWorker)
    (device : DeviceInformation) : QWinRTBluetoothDeviceDiscoveryWorker :=
  let w1 : QWinRTBluetoothDeviceDiscoveryWorker :=
    { w with leInfoFromIdRuns := w.leInfoFromIdRuns + 1 }
  if !device.fromIdAsyncOk then
    let w2 := w1.emitError
    { w2 with m_pendingPairedDevices := w2.m_pendingPairedDevices - 1 }
  else if !device.putCompletedOk then
    let w2 := w1.emitError
    { w2 with m_pendingPairedDevices := w2.m_pendingPairedDevices - 1 }
  else
    { w1 with deviceFromIdOperations := w1.deviceFromIdOperations + 1 }

/-- `QWinRTBluetoothDeviceDiscoveryWorker::gatherDeviceInformation`. -/
def gatherDeviceInformation (w : QWinRTBluetoothDeviceDiscoveryWorker)
    (device : DeviceInformation) (mode : Nat) : QWinRTBluetoothDeviceDiscoveryWorker :=
  if !device.getIdOk then w.emitError
  else if mode = LowEnergyMethod then w.leBluetoothInfoFromDeviceIdAsync device
  else w

/-- `QWinRTBluetoothDeviceDiscoveryWorker::gatherMultipleDeviceInformation`: the
loop over the devices, which returns at the first `GetAt` that fails. -/
def gatherMultipleDeviceInformation (w : QWinRTBluetoothDeviceDiscoveryWorker) :
    List DeviceInformation → Nat → QWinRTBluetoothDeviceDiscoveryWorker
  | [], _ => w
  | device :: rest, mode =>
    if !device.getAtOk then w.emitError
    else gatherMultipleDeviceInformation (w.gatherDeviceInformation device mode) rest mode

/-- `QWinRTBluetoothDeviceDiscoveryWorker::onDeviceDiscoveryFinished`. -/
def onDeviceDiscoveryFinished (w : QWinRTBluetoothDeviceDiscoveryWorker)
    (op : DeviceInformationCollection) (mode : Nat) : QWinRTBluetoothDeviceDiscoveryWorker :=
  if !op.getResultsOk then w.emitError
  else if !op.getSizeOk then w.emitError
  else
    let deviceCount := op.devices.length
    let w1 : QWinRTBluetoothDeviceDiscoveryWorker :=
      { w with m_pendingPairedDevices := w.m_pendingPairedDevices + deviceCount }
    w1.gatherMultipleDeviceInformation op.devices mode

/-- The completion handler that startDeviceDiscovery registers: one operation
has completed, and onDeviceDiscoveryFinished runs when its status is
`Completed`. -/
def discoveryCompleted (w : QWinRTBluetoothDeviceDiscoveryWorker) (completed : Bool)
    (op : DeviceInformationCollection) : QWinRTBluetoothDeviceDiscoveryWorker :=
  let w1 : QWinRTBluetoothDeviceDiscoveryWorker :=
    { w with discoveryOperations := w.discoveryOperations - 1 }
  if completed then w1.onDeviceDiscoveryFinished op LowEnergyMethod else w1

/-- `QWinRTBluetoothDeviceDiscoveryWorker::onPairedBluetoothLEDeviceFoundAsync`;
`deviceOk` tells whether the device was obtained and handled without an error
being emitted (`onBluetoothLEDeviceFound` works on the device map and emits
`deviceFound`, which are left out). -/
def onPairedBluetoothLEDeviceFoundAsync (w : QWinRTBluetoothDeviceDiscoveryWorker)
    (completed deviceOk : Bool) : QWinRTBluetoothDeviceDiscoveryWorker :=
  let w1 : QWinRTBluetoothDeviceDiscoveryWorker :=
    { w with m_pendingPairedDevices := w.m_pendingPairedDevices - 1 }
  if !completed then w1
  else if !deviceOk then w1.emitError
  else w1

/-- The completion handler that leBluetoothInfoFromDeviceIdAsync registers. -/
def deviceFromIdCompleted (w : QWinRTBluetoothDeviceDiscoveryWorker)
    (completed deviceOk : Bool) : QWinRTBluetoothDeviceDiscoveryWorker :=
  let w1 : QWinRTBluetoothDeviceDiscoveryWorker :=
    { w with deviceFromIdOperations := w.deviceFromIdOperations - 1 }
  if completed then w1.onPairedBluetoothLEDeviceFoundAsync completed deviceOk
  else { w1 with m_pendingPairedDevices := w1.m_pendingPairedDevices - 1 }

/-- `QWinRTBluetoothDeviceDiscoveryWorker::incrementPendingDevicesCount`. -/
def incrementPendingDevicesCount (w : QWinRTBluetoothDeviceDiscoveryWorker) :
    QWinRTBluetoothDeviceDiscoveryWorker :=
  { w with m_pendingPairedDevices := w.m_pendingPairedDevices + 1 }

/-- `QWinRTBluetoothDeviceDiscoveryWorker::decrementPendingDevicesCountAndCheckFinished`. -/
def decrementPendingDevicesCountAndCheckFinished (w : QWinRTBluetoothDeviceDiscoveryWorker)
    (watchersStopOk : Bool) : QWinRTBluetoothDeviceDiscoveryWorker :=
  let w1 : QWinRTBluetoothDeviceDiscoveryWorker :=
    { w with m_pendingPairedDevices := w.m_pendingPairedDevices - 1 }
  if w1.m_pendingPairedDevices = 0 && !w1.m_classicScanStarted
      && !w1.m_lowEnergyScanStarted && !(w1.requestedModes &&& LowEnergyMethod ≠ 0) then
    w1.finishDiscovery watchersStopOk
  else w1

/-- `QWinRTBluetoothDeviceDiscoveryWorker::getClassicDeviceFromId`, up to the
start of the asynchronous operation. -/
def getClassicDeviceFromId (w : QWinRTBluetoothDeviceDiscoveryWorker) :
    QWinRTBluetoothDeviceDiscoveryWorker :=
  { w with m_pendingPairedDevices := w.m_pendingPairedDevices + 1 }

/-- `QWinRTBluetoothDeviceDiscoveryWorker::onBluetoothDeviceFound`. -/
def onBluetoothDeviceFound (w : QWinRTBluetoothDeviceDiscoveryWorker) (watcherId : Int) :
    QWinRTBluetoothDeviceDiscoveryWorker :=
  if watcherId = ClassicWatcherId then w.getClassicDeviceFromId else w

/-- `QWinRTBluetoothDeviceDiscoveryWorker::onDeviceEnumerationCompleted`. -/
def onDeviceEnumerationCompleted (w : QWinRTBluetoothDeviceDiscoveryWorker)
    (watcherId : Int) (watchersStopOk : Bool) : QWinRTBluetoothDeviceDiscoveryWorker :=
  let w1 : QWinRTBluetoothDeviceDiscoveryWorker :=
    if watcherId = ClassicWatcherId then { w with m_classicScanStarted := false }
    else if watcherId = LowEnergyWatcherId then { w with m_lowEnergyScanStarted := false }
    else w
  if !w1.m_lowEnergyScanStarted && !w1.m_classicScanStarted
      && w1.m_pendingPairedDevices = 0
      && !(w1.requestedModes &&& LowEnergyMethod ≠ 0) then
    w1.finishDiscovery watchersStopOk
  else w1

/-- The states of a worker that was constructed and then started once with
`methods` (the agent makes a new worker for every start): after the start, the
completion handlers run while their operation is outstanding, and the slots and
invokable methods run at any time; handlers that are not rendered at most emit
an error. -/
inductive Reachable (methods : Nat) : QWinRTBluetoothDeviceDiscoveryWorker → Prop where
  | started (factoryOk staticsOk findAllOk putCompletedOk watcherOk classicWatcherOk : Bool) :
      Reachable methods
        ((construct factoryOk).start methods staticsOk findAllOk putCompletedOk watcherOk
          classicWatcherOk)
  | discoveryCompleted (w : QWinRTBluetoothDeviceDiscoveryWorker) (completed : Bool)
      (op : DeviceInformationCollection) :
      Reachable methods w → 0 < w.discoveryOperations →
      Reachable methods (w.discoveryCompleted completed op)
  | deviceFromIdCompleted (w : QWinRTBluetoothDeviceDiscoveryWorker)
      (completed deviceOk : Bool) :
      Reachable methods w → 0 < w.deviceFromIdOperations →
      Reachable methods (w.deviceFromIdCompleted completed deviceOk)
  | incrementPendingDevicesCount (w : QWinRTBluetoothDeviceDiscoveryWorker) :
      Reachable methods w → Reachable methods w.incrementPendingDevicesCount
  | decrementPendingDevicesCountAndCheckFinished (w : QWinRTBluetoothDeviceDiscoveryWorker)
      (watchersStopOk : Bool) :
      Reachable methods w →
      Reachable methods (w.decrementPendingDevicesCountAndCheckFinished watchersStopOk)
  | onBluetoothDeviceFound (w : QWinRTBluetoothDeviceDiscoveryWorker) (watcherId : Int) :
      Reachable methods w → Reachable methods (w.onBluetoothDeviceFound watcherId)
  | onDeviceEnumerationCompleted (w : QWinRTBluetoothDeviceDiscoveryWorker)
      (watcherId : Int) (watchersStopOk : Bool) :
      Reachable methods w →
      Reachable methods (w.onDeviceEnumerationCompleted watcherId watchersStopOk)
  | finishDiscovery (w : QWinRTBluetoothDeviceDiscoveryWorker) (watchersStopOk : Bool) :
      Reachable methods w → Reachable methods (w.finishDiscovery watchersStopOk)
  | stop (w : QWinRTBluetoothDeviceDiscoveryWorker) (watchersStopOk : Bool) :
      Reachable methods w → Reachable methods (w.stop watchersStopOk)
  | emitError (w : QWinRTBluetoothDeviceDiscoveryWorker) :
      Reachable methods w → Reachable methods w.emitError

end QWinRTBluetoothDeviceDiscoveryWorker

/-- The members that only the start and the completion handlers change: the
requested modes and the three counters. -/
def workerFrame (w : QWinRTBluetoothDeviceDiscoveryWorker) : Nat × Nat × Nat × Nat :=
  (w.requestedModes, w.discoveryOperations, w.deviceFromIdOperations, w.leInfoFromIdRuns)

/-! ## Sample data -/

/-- A controller that has received no call yet. -/
def sampleController : QLowEnergyControllerPrivate := ⟨[]⟩

/-- Characteristic list with one characteristic, handle 3, properties
`{Read, Notify}`, with one descriptor, handle 4. -/
def readNotifyList : QHash QLowEnergyHandle CharData :=
  ⟨[(3, ⟨0x2A19, PropertyType.Read ||| PropertyType.Notify, [0],
        ⟨[(4, ⟨0x2902, [0, 0]⟩)]⟩⟩)]⟩

/-- Characteristic list with one characteristic, handle 3, properties
`{Read, Write}`, with one descriptor, handle 4. -/
def readWriteList : QHash QLowEnergyHandle CharData :=
  ⟨[(3, ⟨0x2A19, PropertyType.Read ||| PropertyType.Write, [0],
        ⟨[(4, ⟨0x2902, [0, 0]⟩)]⟩⟩)]⟩

/-- A service at address 100 with the given state, characteristic list and
controller, and no error so far. -/
def sampleService (state : ServiceState) (chars : QHash QLowEnergyHandle CharData)
    (controller : Option QLowEnergyControllerPrivate) : QLowEnergyService :=
  ⟨100, ⟨0x180F, [], 1, state, .NoError, chars, controller⟩⟩

/-- The characteristic object with handle 3 of the service at address 100. -/
def sampleCharacteristic : QLowEnergyCharacteristic := ⟨some 100, some ⟨3⟩⟩

/-- The descriptor object with handle 4 (characteristic 3) of the service at
address 100. -/
def sampleDescriptor : QLowEnergyDescriptor := ⟨some 100, some ⟨3, 4⟩⟩

/-- A characteristic object with handle 3 of another service, at address 200. -/
def foreignCharacteristic : QLowEnergyCharacteristic := ⟨some 200, some ⟨3⟩⟩

/-- A descriptor object with handle 4 (characteristic 3) of another service, at
address 200. -/
def foreignDescriptor : QLowEnergyDescriptor := ⟨some 200, some ⟨3, 4⟩⟩

/-- A registry with one hub, address 7000, registered under token 41. -/
def sampleHubWorld : HubWorld := ⟨⟨[(41, 7000)]⟩, []⟩

/-- The hub at address 7000 with token 41. -/
def sampleHub : LowEnergyNotificationHub := ⟨7000, 41, ⟨true, 41⟩⟩

/-- A Java object whose text is a UUID. -/
def uuidObject : JObject := ⟨1, "0000180f-0000-1000-8000-00805f9b34fb", 0x180F⟩

/-- A Java object whose text is not a UUID. -/
def noUuidObject : JObject := ⟨2, "", 0⟩

/-- A discovered device with address 1 and one service UUID. -/
def knownDevice : QBluetoothDeviceInfo := ⟨1, "a", [0x180F], 1⟩

/-- An agent that has discovered `knownDevice`. -/
def sampleAgent : QBluetoothDeviceDiscoveryAgentPrivate := ⟨[knownDevice], []⟩

/-- A worker started for the Low Energy method whose device discovery has
completed with one device, for which `FromIdAsync` failed. -/
def sampleWorker : QWinRTBluetoothDeviceDiscoveryWorker :=
  ((QWinRTBluetoothDeviceDiscoveryWorker.construct true).start LowEnergyMethod
      true true true true true).discoveryCompleted true
    ⟨true, true, [⟨true, true, false, true⟩]⟩

/-- A characteristic write job. -/
def sampleJob (handle : QLowEnergyHandle) : GattJob :=
  ⟨0x02, handle, [1], .WriteWithResponse, 100⟩

/-! ## Helper lemmas -/

section Helpers

open QLowEnergyService

theorem state_setError (s : QLowEnergyService) (e : ServiceError) :
    ({ s with d := s.d.setError e } : QLowEnergyService).d.state = s.d.state := rfl

theorem state_callController (s : QLowEnergyService) (c : QLowEnergyControllerPrivate)
    (call : ControllerCall) : (s.callController c call).d.state = s.d.state := rfl

theorem error_callController (s : QLowEnergyService) (c : QLowEnergyControllerPrivate)
    (call : ControllerCall) : (s.callController c call).d.lastError = s.d.lastError := rfl

theorem state_readCharacteristic (s : QLowEnergyService) (c : QLowEnergyCharacteristic) :
    (s.readCharacteristic c).d.state = s.d.state := by
  unfold readCharacteristic
  split_ifs <;> rfl

theorem state_writeCharacteristic (s : QLowEnergyService) (c : QLowEnergyCharacteristic)
    (v : QByteArray) (m : WriteMode) :
    (s.writeCharacteristic c v m).d.state = s.d.state := by
  obtain ⟨p, ⟨u, inc, t, st, e, cl, k⟩⟩ := s
  unfold writeCharacteristic
  by_cases hc : contains ⟨p, ⟨u, inc, t, st, e, cl, k⟩⟩ c = true
  · cases k <;> cases st <;>
      simp only [hc, state, QLowEnergyServicePrivate.setError, callController,
        Bool.not_true, Bool.false_eq_true, if_false, ne_eq, not_true_eq_false,
        not_false_eq_true, if_true, reduceCtorEq] <;>
      split_ifs <;> rfl
  · simp [hc]

theorem state_readDescriptor (s : QLowEnergyService) (x : QLowEnergyDescriptor) :
    (s.readDescriptor x).d.state = s.d.state := by
  unfold readDescriptor
  split_ifs <;> rfl

theorem state_writeDescriptor (s : QLowEnergyService) (x : QLowEnergyDescriptor)
    (v : QByteArray) : (s.writeDescriptor x v).d.state = s.d.state := by
  unfold writeDescriptor
  split_ifs
  · rfl
  · rfl
  · cases hk : s.d.controller <;> rfl

theorem state_discoverDetails_invalid (s : QLowEnergyService)
    (h : s.d.state = .InvalidService) : s.discoverDetails.d.state = .InvalidService := by
  unfold discoverDetails
  simp [h, QLowEnergyServicePrivate.setError]

end Helpers

/-! ## QLowEnergyService: results -/

section ServiceResults

open QLowEnergyService

/-- C1: on a service in the ServiceDiscovered state with a controller attached,
writing with mode WriteWithResponse to a characteristic of the service whose
properties do not include Write sets the last error to OperationError and
passes nothing to the controller. -/
theorem writeCharacteristic_withResponse_not_permitted (s : QLowEnergyService)
    (k : QLowEnergyControllerPrivate) (c : QLowEnergyCharacteristic) (v : QByteArray)
    (hs : s.state = .ServiceDiscovered) (hk : s.d.controller = some k)
    (hc : s.contains c = true) (hp : c.properties s.d &&& PropertyType.Write = 0) :
    (s.writeCharacteristic c v .WriteWithResponse).error = .OperationError
      ∧ (s.writeCharacteristic c v .WriteWithResponse).controllerCalls = k.calls := by
  obtain ⟨p, ⟨u, inc, t, st, e, cl, ctl⟩⟩ := s
  simp only [state] at hs
  simp only at hk
  subst hs hk
  simp only at hp
  unfold writeCharacteristic
  simp [hc, hp, state, error, controllerCalls, QLowEnergyServicePrivate.setError]

/-- Witness for C1: a characteristic with properties `{Read, Notify}`. -/
theorem writeCharacteristic_withResponse_not_permitted_witness :
    ((sampleService .ServiceDiscovered readNotifyList (some sampleController)).writeCharacteristic
        sampleCharacteristic [1, 2] .WriteWithResponse).error = .OperationError
      ∧ ((sampleService .ServiceDiscovered readNotifyList
          (some sampleController)).writeCharacteristic
        sampleCharacteristic [1, 2] .WriteWithResponse).controllerCalls = [] :=
  writeCharacteristic_withResponse_not_permitted
    (sampleService .ServiceDiscovered readNotifyList (some sampleController))
    sampleController sampleCharacteristic [1, 2] rfl rfl (by decide) (by decide)

/-- C2: evaluation at a service that is still DiscoveringServices, has a
controller, and already lists characteristic 3 with the Write property: the
write sets OperationError and nevertheless passes the write request on. -/
theorem writeCharacteristic_not_discovered_still_writes :
    (sampleService .DiscoveringServices readWriteList (some sampleController)).contains
        sampleCharacteristic = true
      ∧ (sampleService .DiscoveringServices readWriteList (some sampleController)).state
        ≠ .ServiceDiscovered
      ∧ ((sampleService .DiscoveringServices readWriteList
          (some sampleController)).writeCharacteristic
        sampleCharacteristic [1, 2] .WriteWithResponse).error = .OperationError
      ∧ ((sampleService .DiscoveringServices readWriteList
          (some sampleController)).writeCharacteristic
        sampleCharacteristic [1, 2] .WriteWithResponse).controllerCalls
        = [.writeCharacteristic 100 3 [1, 2] true] := by
  decide

/-- C3 as stated fails: for a characteristic and a descriptor of another
service, none of the four operations leaves OperationError as the last error of
a service whose last error was NoError. -/
theorem foreign_attribute_sets_no_error :
    (sampleService .ServiceDiscovered readWriteList (some sampleController)).contains
        foreignCharacteristic = false
      ∧ (sampleService .ServiceDiscovered readWriteList
          (some sampleController)).containsDescriptor foreignDescriptor = false
      ∧ ((sampleService .ServiceDiscovered readWriteList
          (some sampleController)).readCharacteristic foreignCharacteristic).error
        ≠ .OperationError
      ∧ ((sampleService .ServiceDiscovered readWriteList
          (some sampleController)).writeCharacteristic foreignCharacteristic [1, 2]
            .WriteWithResponse).error ≠ .OperationError
      ∧ ((sampleService .ServiceDiscovered readWriteList
          (some sampleController)).readDescriptor foreignDescriptor).error
        ≠ .OperationError
      ∧ ((sampleService .ServiceDiscovered readWriteList
          (some sampleController)).writeDescriptor foreignDescriptor [1, 2]).error
        ≠ .OperationError := by
  decide

/-- C3 (amended): for a characteristic and a descriptor that do not belong to
the service, each of readCharacteristic, writeCharacteristic, readDescriptor and
writeDescriptor returns at once: the service, its last error and its controller
included, is left as it was. -/
theorem foreign_attribute_is_ignored (s : QLowEnergyService)
    (c : QLowEnergyCharacteristic) (x : QLowEnergyDescriptor) (v : QByteArray)
    (m : WriteMode) :
    (s.contains c = false →
        s.readCharacteristic c = s ∧ s.writeCharacteristic c v m = s)
      ∧ (s.containsDescriptor x = false →
        s.readDescriptor x = s ∧ s.writeDescriptor x v = s) := by
  refine ⟨fun hc => ⟨?_, ?_⟩, fun hx => ⟨?_, ?_⟩⟩
  · simp [readCharacteristic, hc]
  · simp [writeCharacteristic, hc]
  · simp [readDescriptor, hx]
  · simp [writeDescriptor, hx]

/-- Witness for C3 (amended). -/
theorem foreign_attribute_is_ignored_witness :
    ((sampleService .DiscoveryRequired readWriteList
          (some sampleController)).readCharacteristic foreignCharacteristic
        = sampleService .DiscoveryRequired readWriteList (some sampleController)
      ∧ (sampleService .DiscoveryRequired readWriteList
          (some sampleController)).writeCharacteristic foreignCharacteristic [9]
            .WriteWithoutResponse
        = sampleService .DiscoveryRequired readWriteList (some sampleController))
    ∧ ((sampleService .DiscoveryRequired readWriteList
          (some sampleController)).readDescriptor foreignDescriptor
        = sampleService .DiscoveryRequired readWriteList (some sampleController)
      ∧ (sampleService .DiscoveryRequired readWriteList
          (some sampleController)).writeDescriptor foreignDescriptor [9]
        = sampleService .DiscoveryRequired readWriteList (some sampleController)) :=
  ⟨(foreign_attribute_is_ignored
      (sampleService .DiscoveryRequired readWriteList (some sampleController))
      foreignCharacteristic foreignDescriptor [9] .WriteWithoutResponse).1 (by decide),
   (foreign_attribute_is_ignored
      (sampleService .DiscoveryRequired readWriteList (some sampleController))
      foreignCharacteristic foreignDescriptor [9] .WriteWithoutResponse).2 (by decide)⟩

/-- C4: when the service is not in the ServiceDiscovered state, each of
readCharacteristic, writeCharacteristic, readDescriptor and writeDescriptor on a
characteristic or descriptor of the service leaves OperationError as the last
error. -/
theorem not_discovered_sets_operation_error (s : QLowEnergyService)
    (c : QLowEnergyCharacteristic) (x : QLowEnergyDescriptor) (v : QByteArray)
    (m : WriteMode) (hs : s.state ≠ .ServiceDiscovered) :
    (s.contains c = true →
        (s.readCharacteristic c).error = .OperationError
          ∧ (s.writeCharacteristic c v m).error = .OperationError)
      ∧ (s.containsDescriptor x = true →
        (s.readDescriptor x).error = .OperationError
          ∧ (s.writeDescriptor x v).error = .OperationError) := by
  refine ⟨fun hc => ⟨?_, ?_⟩, fun hx => ⟨?_, ?_⟩⟩
  · simp [readCharacteristic, hc, hs, error, QLowEnergyServicePrivate.setError]
  · obtain ⟨p, ⟨u, inc, t, st, e, cl, k⟩⟩ := s
    simp only [state] at hs
    unfold writeCharacteristic
    cases k with
    | none =>
      simp only [hc, hs, state, error, QLowEnergyServicePrivate.setError,
        Bool.not_true, Bool.false_eq_true, if_false, ne_eq, not_false_eq_true, if_true]
    | some k =>
      simp only [hc, hs, state, error, QLowEnergyServicePrivate.setError, callController,
        Bool.not_true, Bool.false_eq_true, if_false, ne_eq, not_false_eq_true, if_true]
      split_ifs <;> rfl
  · simp [readDescriptor, hx, hs, error, QLowEnergyServicePrivate.setError]
  · simp [writeDescriptor, hx, hs, error, QLowEnergyServicePrivate.setError]

/-- Witness for C4: a service that is still DiscoveringServices. -/
theorem not_discovered_sets_operation_error_witness :
    (((sampleService .DiscoveringServices readWriteList
          (some sampleController)).readCharacteristic sampleCharacteristic).error
        = .OperationError
      ∧ ((sampleService .DiscoveringServices readWriteList
          (some sampleController)).writeCharacteristic sampleCharacteristic [1, 2]
            .WriteWithResponse).error = .OperationError)
    ∧ (((sampleService .DiscoveringServices readWriteList
          (some sampleController)).readDescriptor sampleDescriptor).error
        = .OperationError
      ∧ ((sampleService .DiscoveringServices readWriteList
          (some sampleController)).writeDescriptor sampleDescriptor [1, 2]).error
        = .OperationError) :=
  ⟨(not_discovered_sets_operation_error
      (sampleService .DiscoveringServices readWriteList (some sampleController))
      sampleCharacteristic sampleDescriptor [1, 2] .WriteWithResponse (by decide)).1
      (by decide),
   (not_discovered_sets_operation_error
      (sampleService .DiscoveringServices readWriteList (some sampleController))
      sampleCharacteristic sampleDescriptor [1, 2] .WriteWithResponse (by decide)).2
      (by decide)⟩

/-- C5: evaluation at a ServiceDiscovered service with a controller and a
readable characteristic of the service: readCharacteristic returns the service as
it was, and the controller has received no read request. -/
theorem readCharacteristic_issues_no_read :
    (sampleService .ServiceDiscovered readWriteList (some sampleController)).contains
        sampleCharacteristic = true
      ∧ (sampleService .ServiceDiscovered readWriteList
          (some sampleController)).readCharacteristic sampleCharacteristic
        = sampleService .ServiceDiscovered readWriteList (some sampleController)
      ∧ ((sampleService .ServiceDiscovered readWriteList
          (some sampleController)).readCharacteristic sampleCharacteristic).controllerCalls
        ≠ [.readCharacteristic 100 3] := by
  decide

/-- C6: with a controller attached, two discoverDetails calls in a row on a
service in DiscoveryRequired pass exactly one discoverServiceDetails request to
the controller, and discoverDetails on a service in DiscoveringServices or
ServiceDiscovered leaves the service (state, last error, controller) as it
was. -/
theorem discoverDetails_not_repeated (s : QLowEnergyService)
    (k : QLowEnergyControllerPrivate) (hk : s.d.controller = some k) :
    (s.state = .DiscoveryRequired →
        s.discoverDetails.discoverDetails.controllerCalls
          = k.calls ++ [.discoverServiceDetails s.d.uuid])
      ∧ (s.state = .DiscoveringServices ∨ s.state = .ServiceDiscovered →
        s.discoverDetails = s) := by
  obtain ⟨p, ⟨u, inc, t, st, e, cl, ctl⟩⟩ := s
  simp only at hk
  subst hk
  constructor
  · intro hs
    simp only [state] at hs
    subst hs
    simp [discoverDetails, controllerCalls, callController,
      QLowEnergyServicePrivate.setState, QLowEnergyControllerPrivate.receive]
  · intro hs
    simp only [state] at hs
    rcases hs with hs | hs <;> subst hs <;> simp [discoverDetails]

/-- Witness for C6. -/
theorem discoverDetails_not_repeated_witness :
    (sampleService .DiscoveryRequired readWriteList
        (some sampleController)).discoverDetails.discoverDetails.controllerCalls
        = [.discoverServiceDetails 0x180F]
      ∧ (sampleService .DiscoveringServices readWriteList
          (some sampleController)).discoverDetails
        = sampleService .DiscoveringServices readWriteList (some sampleController)
      ∧ (sampleService .ServiceDiscovered readWriteList
          (some sampleController)).discoverDetails
        = sampleService .ServiceDiscovered readWriteList (some sampleController) :=
  ⟨(discoverDetails_not_repeated
      (sampleService .DiscoveryRequired readWriteList (some sampleController))
      sampleController rfl).1 rfl,
   (discoverDetails_not_repeated
      (sampleService .DiscoveringServices readWriteList (some sampleController))
      sampleController rfl).2 (Or.inl rfl),
   (discoverDetails_not_repeated
      (sampleService .ServiceDiscovered readWriteList (some sampleController))
      sampleController rfl).2 (Or.inr rfl)⟩

/-- C7: on a service in DiscoveryRequired with a controller attached,
discoverDetails moves the state to DiscoveringServices, passes exactly one
discoverServiceDetails request with the service's own UUID to the controller,
and leaves the last error as it was. -/
theorem discoverDetails_starts_discovery (s : QLowEnergyService)
    (k : QLowEnergyControllerPrivate) (hk : s.d.controller = some k)
    (hs : s.state = .DiscoveryRequired) :
    s.discoverDetails.state = .DiscoveringServices
      ∧ s.discoverDetails.controllerCalls = k.calls ++ [.discoverServiceDetails s.d.uuid]
      ∧ s.discoverDetails.error = s.error := by
  obtain ⟨p, ⟨u, inc, t, st, e, cl, ctl⟩⟩ := s
  simp only at hk
  simp only [state] at hs
  subst hk hs
  simp [discoverDetails, controllerCalls, callController, state, error,
    QLowEnergyServicePrivate.setState, QLowEnergyControllerPrivate.receive]

/-- Witness for C7. -/
theorem discoverDetails_starts_discovery_witness :
    (sampleService .DiscoveryRequired readNotifyList
        (some sampleController)).discoverDetails.state = .DiscoveringServices
      ∧ (sampleService .DiscoveryRequired readNotifyList
          (some sampleController)).discoverDetails.controllerCalls
        = [] ++ [.discoverServiceDetails 0x180F]
      ∧ (sampleService .DiscoveryRequired readNotifyList
          (some sampleController)).discoverDetails.error = .NoError :=
  discoverDetails_starts_discovery
    (sampleService .DiscoveryRequired readNotifyList (some sampleController))
    sampleController rfl rfl

/-- C8: when no controller is attached or the state is InvalidService,
discoverDetails sets the last error to OperationError, leaves the state as it
was and passes nothing to the controller. -/
theorem discoverDetails_not_ready (s : QLowEnergyService)
    (h : s.d.controller = none ∨ s.state = .InvalidService) :
    s.discoverDetails.error = .OperationError
      ∧ s.discoverDetails.state = s.state
      ∧ s.discoverDetails.d.controller = s.d.controller := by
  obtain ⟨p, ⟨u, inc, t, st, e, cl, ctl⟩⟩ := s
  simp only [state] at h
  rcases h with h | h <;> subst h <;>
    simp [discoverDetails, state, error, QLowEnergyServicePrivate.setError]

/-- Witness for C8: a service without controller, and an invalid service that
still has one. -/
theorem discoverDetails_not_ready_witness :
    ((sampleService .DiscoveryRequired readNotifyList none).discoverDetails.error
        = .OperationError
      ∧ (sampleService .DiscoveryRequired readNotifyList none).discoverDetails.state
        = .DiscoveryRequired
      ∧ (sampleService .DiscoveryRequired readNotifyList none).discoverDetails.d.controller
        = none)
    ∧ ((sampleService .InvalidService readNotifyList
          (some sampleController)).discoverDetails.error = .OperationError
      ∧ (sampleService .InvalidService readNotifyList
          (some sampleController)).discoverDetails.state = .InvalidService
      ∧ (sampleService .InvalidService readNotifyList
          (some sampleController)).discoverDetails.d.controller = some sampleController) :=
  ⟨discoverDetails_not_ready (sampleService .DiscoveryRequired readNotifyList none)
      (Or.inl rfl),
   discoverDetails_not_ready
      (sampleService .InvalidService readNotifyList (some sampleController)) (Or.inr rfl)⟩

/-- C9: a service in the InvalidService state stays in it over every sequence of
discoverDetails, readCharacteristic, writeCharacteristic, readDescriptor and
writeDescriptor calls, whatever their arguments. -/
theorem invalid_service_stays_invalid (s : QLowEnergyService) (calls : List ServiceCall)
    (h : s.state = .InvalidService) : (s.performAll calls).state = .InvalidService := by
  induction calls generalizing s with
  | nil => exact h
  | cons call rest ih =>
    have step : (s.perform call).state = .InvalidService := by
      simp only [state] at h ⊢
      cases call with
      | discoverDetails => exact state_discoverDetails_invalid s h
      | readCharacteristic c => exact (state_readCharacteristic s c).trans h
      | writeCharacteristic c v m => exact (state_writeCharacteristic s c v m).trans h
      | readDescriptor x => exact (state_readDescriptor s x).trans h
      | writeDescriptor x v => exact (state_writeDescriptor s x v).trans h
    exact ih (s.perform call) step

/-- Witness for C9. -/
theorem invalid_service_stays_invalid_witness :
    ((sampleService .InvalidService readWriteList (some sampleController)).performAll
        [.discoverDetails, .writeCharacteristic sampleCharacteristic [1] .WriteWithResponse,
         .readCharacteristic sampleCharacteristic, .writeDescriptor sampleDescriptor [1, 0],
         .readDescriptor sampleDescriptor, .discoverDetails]).state = .InvalidService :=
  invalid_service_stays_invalid
    (sampleService .InvalidService readWriteList (some sampleController)) _ rfl

/-- A permitted write call on a ServiceDiscovered service with a controller
hands the request of the call to the controller and changes nothing else. -/
theorem perform_permitted_write (s : QLowEnergyService) (k : QLowEnergyControllerPrivate)
    (wc : WriteCall) (hs : s.state = .ServiceDiscovered) (hk : s.d.controller = some k)
    (hp : wc.permitted s = true) :
    s.perform wc.toServiceCall = s.callController k (wc.request s.d_ptr) := by
  obtain ⟨p, ⟨u, inc, t, st, e, cl, ctl⟩⟩ := s
  simp only [state] at hs
  simp only at hk
  subst hs hk
  cases wc with
  | characteristic c v m =>
    cases m <;>
      simp only [WriteCall.permitted, Bool.and_eq_true, bne_iff_ne, ne_eq] at hp <;>
      obtain ⟨hc, hprop⟩ := hp <;>
      simp [WriteCall.toServiceCall, WriteCall.request, perform, writeCharacteristic, hc,
        hprop, state]
  | descriptor x v =>
    simp only [WriteCall.permitted] at hp
    simp [WriteCall.toServiceCall, WriteCall.request, perform, writeDescriptor, hp, state]

/-- Whether a write call is permitted does not depend on the calls the
controller has received. -/
theorem permitted_callController (s : QLowEnergyService) (k : QLowEnergyControllerPrivate)
    (call : ControllerCall) (wc : WriteCall) :
    wc.permitted (s.callController k call) = wc.permitted s := by
  cases wc with
  | characteristic c v m => cases m <;> rfl
  | descriptor x v => rfl

/-- C15: on a service in the ServiceDiscovered state with a controller, a
sequence of writeCharacteristic and writeDescriptor calls that are all permitted
adds to the calls of the controller exactly the requests of these calls: one
per call, in the order of the calls, each with the handles and the value of its
call, repeated writes included. -/
theorem permitted_writes_reach_controller_in_order (s : QLowEnergyService)
    (k : QLowEnergyControllerPrivate) (writes : List WriteCall)
    (hs : s.state = .ServiceDiscovered) (hk : s.d.controller = some k)
    (hp : ∀ wc ∈ writes, wc.permitted s = true) :
    (s.performAll (writes.map WriteCall.toServiceCall)).controllerCalls
      = k.calls ++ writes.map (WriteCall.request s.d_ptr) := by
  induction writes generalizing s k with
  | nil => simp [performAll, controllerCalls, hk]
  | cons wc rest ih =>
    have hstep := perform_permitted_write s k wc hs hk (hp wc (List.mem_cons_self _ _))
    have hrest : ∀ wc1 ∈ rest,
        wc1.permitted (s.callController k (wc.request s.d_ptr)) = true := by
      intro wc1 hmem
      rw [permitted_callController]
      exact hp wc1 (List.mem_cons_of_mem _ hmem)
    have := ih (s.callController k (wc.request s.d_ptr))
      (k.receive (wc.request s.d_ptr)) hs rfl hrest
    simp only [performAll, List.map_cons, List.foldl_cons, hstep] at this ⊢
    rw [this]
    simp [QLowEnergyControllerPrivate.receive, callController]

/-- Witness for C15: the same characteristic written twice, then its
descriptor. -/
theorem permitted_writes_reach_controller_in_order_witness :
    ((sampleService .ServiceDiscovered readWriteList (some sampleController)).performAll
        ([.characteristic sampleCharacteristic [1] .WriteWithResponse,
          .characteristic sampleCharacteristic [1] .WriteWithResponse,
          .descriptor sampleDescriptor [1, 0]].map WriteCall.toServiceCall)).controllerCalls
      = [] ++ [.writeCharacteristic 100 3 [1] true, .writeCharacteristic 100 3 [1] true,
          .writeDescriptor 100 3 4 [1, 0]] :=
  permitted_writes_reach_controller_in_order
    (sampleService .ServiceDiscovered readWriteList (some sampleController))
    sampleController
    [.characteristic sampleCharacteristic [1] .WriteWithResponse,
     .characteristic sampleCharacteristic [1] .WriteWithResponse,
     .descriptor sampleDescriptor [1, 0]] rfl rfl (by decide)

/-- C16: for a characteristic of a ServiceDiscovered service with a controller,
writeCharacteristic with WriteWithResponse hands a request with response flag
true to the controller when the characteristic has the Write property and none
when it has not, and with WriteWithoutResponse a request with response flag
false when it has the WriteNoResponse property and none when it has not; a
request carries the handle of the characteristic and the given value, and
leaves the last error as it was. -/
theorem writeCharacteristic_follows_properties (s : QLowEnergyService)
    (k : QLowEnergyControllerPrivate) (c : QLowEnergyCharacteristic) (v : QByteArray)
    (hs : s.state = .ServiceDiscovered) (hk : s.d.controller = some k)
    (hc : s.contains c = true) :
    (c.properties s.d &&& PropertyType.Write ≠ 0 →
        (s.writeCharacteristic c v .WriteWithResponse).controllerCalls
            = k.calls ++ [.writeCharacteristic s.d_ptr c.attributeHandle v true]
          ∧ (s.writeCharacteristic c v .WriteWithResponse).error = s.error)
      ∧ (c.properties s.d &&& PropertyType.Write = 0 →
        (s.writeCharacteristic c v .WriteWithResponse).controllerCalls = k.calls)
      ∧ (c.properties s.d &&& PropertyType.WriteNoResponse ≠ 0 →
        (s.writeCharacteristic c v .WriteWithoutResponse).controllerCalls
            = k.calls ++ [.writeCharacteristic s.d_ptr c.attributeHandle v false]
          ∧ (s.writeCharacteristic c v .WriteWithoutResponse).error = s.error)
      ∧ (c.properties s.d &&& PropertyType.WriteNoResponse = 0 →
        (s.writeCharacteristic c v .WriteWithoutResponse).controllerCalls = k.calls) := by
  obtain ⟨p, ⟨u, inc, t, st, e, cl, ctl⟩⟩ := s
  simp only [state] at hs
  simp only at hk
  subst hs hk
  refine ⟨fun hp => ?_, fun hp => ?_, fun hp => ?_, fun hp => ?_⟩ <;>
    simp only at hp <;>
    simp [writeCharacteristic, hc, hp, state, error, controllerCalls, callController,
      QLowEnergyControllerPrivate.receive, QLowEnergyServicePrivate.setError]

/-- Witness for C16: a characteristic with properties `{Read, Write}`, written in
both modes. -/
theorem writeCharacteristic_follows_properties_witness :
    (((sampleService .ServiceDiscovered readWriteList
          (some sampleController)).writeCharacteristic sampleCharacteristic [1, 2]
            .WriteWithResponse).controllerCalls
        = [] ++ [.writeCharacteristic 100 3 [1, 2] true]
      ∧ ((sampleService .ServiceDiscovered readWriteList
          (some sampleController)).writeCharacteristic sampleCharacteristic [1, 2]
            .WriteWithResponse).error = .NoError)
    ∧ ((sampleService .ServiceDiscovered readWriteList
          (some sampleController)).writeCharacteristic sampleCharacteristic [1, 2]
            .WriteWithoutResponse).controllerCalls = [] :=
  ⟨(writeCharacteristic_follows_properties
      (sampleService .ServiceDiscovered readWriteList (some sampleController))
      sampleController sampleCharacteristic [1, 2] rfl rfl (by decide)).1 (by decide),
   (writeCharacteristic_follows_properties
      (sampleService .ServiceDiscovered readWriteList (some sampleController))
      sampleController sampleCharacteristic [1, 2] rfl rfl (by decide)).2.2.2 (by decide)⟩

/-- C17: writeDescriptor adds a request to the calls of the controller exactly
when the descriptor belongs to the service, the state is ServiceDiscovered and a
controller is attached; it is then the one request with the characteristic
handle and the handle of the descriptor and the given value. -/
theorem writeDescriptor_request_iff (s : QLowEnergyService) (x : QLowEnergyDescriptor)
    (v : QByteArray) :
    (s.writeDescriptor x v).controllerCalls
      = if s.containsDescriptor x = true ∧ s.state = .ServiceDiscovered
            ∧ s.d.controller.isSome = true then
          s.controllerCalls ++ [.writeDescriptor s.d_ptr x.characteristicHandle x.handle v]
        else s.controllerCalls := by
  obtain ⟨p, ⟨u, inc, t, st, e, cl, ctl⟩⟩ := s
  unfold writeDescriptor
  by_cases hx : containsDescriptor ⟨p, ⟨u, inc, t, st, e, cl, ctl⟩⟩ x = true
  · cases ctl <;> cases st <;>
      simp [hx, state, controllerCalls, callController,
        QLowEnergyControllerPrivate.receive, QLowEnergyServicePrivate.setError]
  · simp [hx]

theorem contains_iff_mem_keys (h : QHash QLowEnergyHandle CharData) (k : QLowEnergyHandle) :
    h.contains k = true ↔ k ∈ h.keys := by
  unfold QHash.contains QHash.keys
  simp [List.any_eq_true]

theorem mem_characteristics (s : QLowEnergyService) (c : QLowEnergyCharacteristic) :
    c ∈ s.characteristics
      ↔ ∃ handle ∈ s.d.characteristicList.keys,
          QLowEnergyCharacteristic.ofHandle s.d_ptr handle = c := by
  unfold characteristics
  simp only [List.mem_map]
  constructor
  · rintro ⟨a, ha, hc⟩
    exact ⟨a, (List.perm_insertionSort _ _).mem_iff.mp ha, hc⟩
  · rintro ⟨a, ha, hc⟩
    exact ⟨a, (List.perm_insertionSort _ _).mem_iff.mpr ha, hc⟩

/-- C21: a characteristic object belongs to the service exactly when the list
that characteristics() returns has it, that is, has a characteristic with the
same service data and the same handle; for an object that has private data
whenever it has service data, this is the same as the list having a
characteristic with the same service data and the same attributeHandle(). -/
theorem contains_iff_in_characteristics (s : QLowEnergyService)
    (c : QLowEnergyCharacteristic) :
    (s.contains c = true ↔ c ∈ s.characteristics)
      ∧ ((c.d_ptr.isSome = true → c.data.isSome = true) →
          (s.contains c = true ↔
            ∃ x ∈ s.characteristics,
              x.d_ptr = c.d_ptr ∧ x.attributeHandle = c.attributeHandle)) := by
  obtain ⟨dp, data⟩ := c
  constructor
  · rw [mem_characteristics]
    cases dp with
    | none => simp [contains, QLowEnergyCharacteristic.ofHandle]
    | some q =>
      cases data with
      | none => simp [contains, QLowEnergyCharacteristic.ofHandle]
      | some pd =>
        obtain ⟨h⟩ := pd
        simp only [contains, Option.isNone_some, Bool.or_self, Bool.false_eq_true, if_false,
          QLowEnergyCharacteristic.attributeHandle, QLowEnergyCharacteristic.ofHandle]
        by_cases hq : s.d_ptr = q
        · subst hq
          simp [contains_iff_mem_keys]
        · simp [hq]
  · intro hwf
    have hmem : ∀ x : QLowEnergyCharacteristic, x ∈ s.characteristics ↔
        ∃ handle ∈ s.d.characteristicList.keys,
          QLowEnergyCharacteristic.ofHandle s.d_ptr handle = x :=
      fun x => mem_characteristics s x
    cases dp with
    | none =>
      simp only [contains, Option.isNone_none, Bool.true_or, if_true, Bool.false_eq_true,
        false_iff, not_exists, not_and]
      intro x hx hd
      obtain ⟨h, _, rfl⟩ := (hmem x).mp hx
      simp [QLowEnergyCharacteristic.ofHandle] at hd
    | some q =>
      cases data with
      | none => simp at hwf
      | some pd =>
        obtain ⟨h⟩ := pd
        simp only [contains, Option.isNone_some, Bool.or_self, Bool.false_eq_true, if_false,
          QLowEnergyCharacteristic.attributeHandle]
        constructor
        · intro hc
          by_cases hq : s.d_ptr = q
          · subst hq
            have hk : h ∈ s.d.characteristicList.keys := by
              apply (contains_iff_mem_keys _ _).mp
              simpa using hc
            exact ⟨QLowEnergyCharacteristic.ofHandle s.d_ptr h, (hmem _).mpr ⟨h, hk, rfl⟩,
              rfl, rfl⟩
          · simp [hq] at hc
        · rintro ⟨x, hx, hd, hh⟩
          obtain ⟨h1, hk, rfl⟩ := (hmem x).mp hx
          simp only [QLowEnergyCharacteristic.ofHandle, Option.some.injEq] at hd
          simp only [QLowEnergyCharacteristic.ofHandle,
            QLowEnergyCharacteristic.attributeHandle] at hh
          subst hd hh
          simp [(contains_iff_mem_keys _ _).mpr hk]

/-- Witness for C21: the characteristic with handle 3 of the sample service. -/
theorem contains_iff_in_characteristics_witness :
    (sampleService .ServiceDiscovered readWriteList none).contains sampleCharacteristic = true
      ↔ ∃ x ∈ (sampleService .ServiceDiscovered readWriteList none).characteristics,
          x.d_ptr = sampleCharacteristic.d_ptr
            ∧ x.attributeHandle = sampleCharacteristic.attributeHandle :=
  (contains_iff_in_characteristics (sampleService .ServiceDiscovered readWriteList none)
    sampleCharacteristic).2 (by decide)

theorem find_of_mem_keys (h : QHash QLowEnergyHandle CharData) (k : QLowEnergyHandle)
    (hk : k ∈ h.keys) :
    ∃ e ∈ h.entries, e.1 = k ∧ h.entries.find? (fun e => decide (e.1 = k)) = some e := by
  obtain ⟨entries⟩ := h
  unfold QHash.keys at hk
  simp only at hk ⊢
  induction entries with
  | nil => simp at hk
  | cons x xs ih =>
    by_cases hx : x.1 = k
    · exact ⟨x, List.mem_cons_self _ _, hx, by simp [List.find?_cons, hx]⟩
    · have hk1 : k ∈ xs.map Prod.fst := by
        rcases List.mem_cons.mp hk with heq | hmem
        · exact absurd heq.symm hx
        · exact hmem
      obtain ⟨e, he, hek, hfind⟩ := ih hk1
      exact ⟨e, List.mem_cons_of_mem _ he, hek, by simp [List.find?_cons, hx, hfind]⟩

theorem find_of_mem_entries (h : QHash QLowEnergyHandle CharData)
    (hnd : h.keys.Nodup) (e : QLowEnergyHandle × CharData) (he : e ∈ h.entries) :
    h.entries.find? (fun x => decide (x.1 = e.1)) = some e := by
  obtain ⟨entries⟩ := h
  unfold QHash.keys at hnd
  simp only at hnd he ⊢
  induction entries with
  | nil => simp at he
  | cons x xs ih =>
    rw [List.map_cons, List.nodup_cons] at hnd
    rcases List.mem_cons.mp he with heq | hmem
    · subst heq
      simp [List.find?_cons]
    · have hne : ¬ x.1 = e.1 := by
        intro heq
        exact hnd.1 (heq ▸ List.mem_map_of_mem Prod.fst hmem)
      simp [List.find?_cons, hne, ih hnd.2 hmem]

/-- C22: when the keys of the characteristic list are pairwise distinct, as they
are in a hash, characteristic(uuid) returns a characteristic that belongs to the
service and has the UUID if some entry of the list has the UUID, and the
default-constructed characteristic if none has. -/
theorem characteristic_by_uuid (s : QLowEnergyService) (uuid : QBluetoothUuid)
    (hnd : s.d.characteristicList.keys.Nodup) :
    ((∃ e ∈ s.d.characteristicList.entries, e.2.uuid = uuid) →
        s.contains (s.characteristic uuid) = true
          ∧ (s.characteristic uuid).uuid s.d = uuid)
      ∧ ((¬ ∃ e ∈ s.d.characteristicList.entries, e.2.uuid = uuid) →
        s.characteristic uuid = QLowEnergyCharacteristic.invalid) := by
  constructor
  · rintro ⟨e, he, hu⟩
    have hsome : (s.d.characteristicList.keys.find?
        (fun handle =>
          decide ((s.d.characteristicList.value handle ⟨0, 0, [], ⟨[]⟩⟩).uuid = uuid))).isSome
          = true := by
      rw [List.find?_isSome]
      refine ⟨e.1, List.mem_map_of_mem Prod.fst he, ?_⟩
      simp [QHash.value, find_of_mem_entries _ hnd e he, hu]
    obtain ⟨handle, hfind⟩ := Option.isSome_iff_exists.mp hsome
    have hmem : handle ∈ s.d.characteristicList.keys := List.mem_of_find?_eq_some hfind
    have hp := List.find?_some hfind
    obtain ⟨e1, _, _, hfe⟩ := find_of_mem_keys _ handle hmem
    simp only [QHash.value, hfe, decide_eq_true_eq] at hp
    simp only [characteristic, hfind]
    constructor
    · simp [contains, QLowEnergyCharacteristic.ofHandle,
        QLowEnergyCharacteristic.attributeHandle, (contains_iff_mem_keys _ _).mpr hmem]
    · simp [QLowEnergyCharacteristic.uuid, QLowEnergyCharacteristic.ofHandle,
        QLowEnergyCharacteristic.attributeHandle, hfe, hp]
  · intro hno
    have hnone : s.d.characteristicList.keys.find?
        (fun handle =>
          decide ((s.d.characteristicList.value handle ⟨0, 0, [], ⟨[]⟩⟩).uuid = uuid))
          = none := by
      rw [List.find?_eq_none]
      intro handle hmem
      obtain ⟨e1, he1, _, hfe⟩ := find_of_mem_keys _ handle hmem
      simp only [QHash.value, hfe, decide_eq_true_eq]
      exact fun hu => hno ⟨e1, he1, hu⟩
    simp only [characteristic, hnone]

/-- Witness for C22: the UUID 0x2A19 of the characteristic with handle 3, and a
UUID that no characteristic has. -/
theorem characteristic_by_uuid_witness :
    ((sampleService .ServiceDiscovered readWriteList none).contains
          ((sampleService .ServiceDiscovered readWriteList none).characteristic 0x2A19) = true
        ∧ ((sampleService .ServiceDiscovered readWriteList none).characteristic 0x2A19).uuid
            (sampleService .ServiceDiscovered readWriteList none).d = 0x2A19)
      ∧ (sampleService .ServiceDiscovered readWriteList none).characteristic 0x2A00
        = QLowEnergyCharacteristic.invalid :=
  ⟨(characteristic_by_uuid (sampleService .ServiceDiscovered readWriteList none) 0x2A19
      (by decide)).1 (by decide),
   (characteristic_by_uuid (sampleService .ServiceDiscovered readWriteList none) 0x2A00
      (by decide)).2 (by decide)⟩

/-- C23: a descriptor whose characteristic handle is 0, such as the
default-constructed one, belongs to no service, and reading or writing it
leaves the service, its controller included, as it was. -/
theorem descriptor_handle_zero_not_contained (s : QLowEnergyService)
    (x : QLowEnergyDescriptor) (v : QByteArray) (h0 : x.characteristicHandle = 0) :
    s.containsDescriptor x = false ∧ s.readDescriptor x = s ∧ s.writeDescriptor x v = s
      ∧ (⟨none, none⟩ : QLowEnergyDescriptor).characteristicHandle = 0
      ∧ (⟨none, none⟩ : QLowEnergyDescriptor).handle = 0 := by
  have hx : s.containsDescriptor x = false := by
    unfold containsDescriptor
    simp [h0]
  refine ⟨hx, ?_, ?_, rfl, rfl⟩
  · simp [readDescriptor, hx]
  · simp [writeDescriptor, hx]

/-- Witness for C23: the default-constructed descriptor. -/
theorem descriptor_handle_zero_not_contained_witness :
    (sampleService .ServiceDiscovered readWriteList (some sampleController)).containsDescriptor
        ⟨none, none⟩ = false
      ∧ (sampleService .ServiceDiscovered readWriteList
          (some sampleController)).readDescriptor ⟨none, none⟩
        = sampleService .ServiceDiscovered readWriteList (some sampleController)
      ∧ (sampleService .ServiceDiscovered readWriteList
          (some sampleController)).writeDescriptor ⟨none, none⟩ [1]
        = sampleService .ServiceDiscovered readWriteList (some sampleController)
      ∧ (⟨none, none⟩ : QLowEnergyDescriptor).characteristicHandle = 0
      ∧ (⟨none, none⟩ : QLowEnergyDescriptor).handle = 0 :=
  descriptor_handle_zero_not_contained
    (sampleService .ServiceDiscovered readWriteList (some sampleController))
    ⟨none, none⟩ [1] rfl

/-- C24: whatever `equals` decides, `a != b` is true exactly when `a == b` is
not, and both are decided by `equals a b`. -/
theorem descriptor_ne_iff_not_eq
    (equals : QLowEnergyDescriptor → QLowEnergyDescriptor → Bool)
    (a b : QLowEnergyDescriptor) :
    (QLowEnergyDescriptor.operatorNe equals a b = true
        ↔ ¬ QLowEnergyDescriptor.operatorEq equals a b = true)
      ∧ QLowEnergyDescriptor.operatorEq equals a b = equals a b
      ∧ QLowEnergyDescriptor.operatorNe equals a b = !equals a b := by
  refine ⟨?_, rfl, rfl⟩
  simp [QLowEnergyDescriptor.operatorNe, QLowEnergyDescriptor.operatorEq]

/-- C29: on a service in the ServiceDiscovered state without controller,
writeCharacteristic on a characteristic of the service returns the service as it
was, for every value and mode: the last error is not changed and there is no
request; readCharacteristic, readDescriptor and writeDescriptor set
OperationError there. -/
theorem writeCharacteristic_without_controller_is_silent (s : QLowEnergyService)
    (c : QLowEnergyCharacteristic) (x : QLowEnergyDescriptor) (v : QByteArray)
    (m : WriteMode) (hs : s.state = .ServiceDiscovered) (hk : s.d.controller = none)
    (hc : s.contains c = true) :
    s.writeCharacteristic c v m = s
      ∧ (s.readCharacteristic c).error = .OperationError
      ∧ (s.containsDescriptor x = true →
          (s.readDescriptor x).error = .OperationError
            ∧ (s.writeDescriptor x v).error = .OperationError) := by
  refine ⟨?_, ?_, fun hx => ⟨?_, ?_⟩⟩
  · simp [writeCharacteristic, hc, hs, hk]
  · simp [readCharacteristic, hc, hs, hk, error, QLowEnergyServicePrivate.setError]
  · simp [readDescriptor, hx, hs, hk, error, QLowEnergyServicePrivate.setError]
  · simp [writeDescriptor, hx, hs, hk, error, QLowEnergyServicePrivate.setError]

/-- Witness for C29. -/
theorem writeCharacteristic_without_controller_is_silent_witness :
    (sampleService .ServiceDiscovered readWriteList none).writeCharacteristic
        sampleCharacteristic [1, 2] .WriteWithResponse
        = sampleService .ServiceDiscovered readWriteList none
      ∧ ((sampleService .ServiceDiscovered readWriteList none).readCharacteristic
          sampleCharacteristic).error = .OperationError
      ∧ ((sampleService .ServiceDiscovered readWriteList none).containsDescriptor
            sampleDescriptor = true →
          ((sampleService .ServiceDiscovered readWriteList none).readDescriptor
              sampleDescriptor).error = .OperationError
            ∧ ((sampleService .ServiceDiscovered readWriteList none).writeDescriptor
              sampleDescriptor [1, 2]).error = .OperationError) :=
  writeCharacteristic_without_controller_is_silent
    (sampleService .ServiceDiscovered readWriteList none)
    sampleCharacteristic sampleDescriptor [1, 2] .WriteWithResponse rfl rfl (by decide)

/-- C30: when the keys of the characteristic list are pairwise distinct, as they
are in a hash, the handles of the characteristics that characteristics() returns
are the keys, each once, in strictly increasing order; every one of them is a
characteristic of this service; and a service with the same keys in another
order returns the same list. -/
theorem characteristics_sorted_by_handle (s : QLowEnergyService)
    (hnd : s.d.characteristicList.keys.Nodup) :
    (s.characteristics.map QLowEnergyCharacteristic.attributeHandle).Sorted (fun a b => a < b)
      ∧ (s.characteristics.map QLowEnergyCharacteristic.attributeHandle).Perm
          s.d.characteristicList.keys
      ∧ (∀ c ∈ s.characteristics, c.d_ptr = some s.d_ptr)
      ∧ (∀ s2 : QLowEnergyService, s2.d_ptr = s.d_ptr →
          s2.d.characteristicList.keys.Perm s.d.characteristicList.keys →
          s2.characteristics = s.characteristics) := by
  have hmap : s.characteristics.map QLowEnergyCharacteristic.attributeHandle
      = s.d.characteristicList.keys.insertionSort (fun a b => a ≤ b) := by
    unfold characteristics
    simp only [List.map_map]
    conv_rhs => rw [← List.map_id (List.insertionSort _ _)]
    apply List.map_congr_left
    intro a _
    rfl
  have hperm := List.perm_insertionSort (fun a b : Nat => a ≤ b) s.d.characteristicList.keys
  have hsorted := List.sorted_insertionSort (fun a b : Nat => a ≤ b) s.d.characteristicList.keys
  refine ⟨?_, ?_, ?_, ?_⟩
  · rw [hmap]
    exact hsorted.lt_of_le (hperm.nodup_iff.mpr hnd)
  · rw [hmap]
    exact hperm
  · intro c hc
    obtain ⟨handle, _, rfl⟩ := (mem_characteristics s c).mp hc
    rfl
  · intro s2 hp hk
    unfold characteristics
    simp only [hp]
    congr 1
    exact List.eq_of_perm_of_sorted
      (((List.perm_insertionSort _ _).trans hk).trans hperm.symm)
      (List.sorted_insertionSort _ _) hsorted

/-- Witness for C30: keys 7, 3, 5 in the order of the container. -/
theorem characteristics_sorted_by_handle_witness :
    (((sampleService .ServiceDiscovered
          ⟨[(7, ⟨1, 2, [], ⟨[]⟩⟩), (3, ⟨2, 2, [], ⟨[]⟩⟩), (5, ⟨3, 2, [], ⟨[]⟩⟩)]⟩
          none).characteristics.map QLowEnergyCharacteristic.attributeHandle).Sorted
        (fun a b => a < b))
      ∧ (sampleService .ServiceDiscovered
          ⟨[(7, ⟨1, 2, [], ⟨[]⟩⟩), (3, ⟨2, 2, [], ⟨[]⟩⟩), (5, ⟨3, 2, [], ⟨[]⟩⟩)]⟩
          none).characteristics
        = [⟨some 100, some ⟨3⟩⟩, ⟨some 100, some ⟨5⟩⟩, ⟨some 100, some ⟨7⟩⟩] :=
  ⟨(characteristics_sorted_by_handle
      (sampleService .ServiceDiscovered
        ⟨[(7, ⟨1, 2, [], ⟨[]⟩⟩), (3, ⟨2, 2, [], ⟨[]⟩⟩), (5, ⟨3, 2, [], ⟨[]⟩⟩)]⟩ none)
      (by decide)).1,
   by decide⟩

end ServiceResults

/-! ## LowEnergyNotificationHub: results -/

section HubResults

open LowEnergyNotificationHub

theorem lookup_of_not_contains (w : HubWorld) (t : Int)
    (h : w.hubMap.contains t = false) : lookup w t = 0 := by
  unfold lookup QHash.value
  unfold QHash.contains at h
  have hnone : w.hubMap.entries.find? (fun e => decide (e.1 = t)) = none := by
    rw [List.find?_eq_none]
    intro e he
    have := List.any_eq_false.mp h e he
    simpa using this
  rw [hnone]

/-- C10: a callback of any kind whose token is not in the registry posts no
event and leaves the registry as it was. -/
theorem unregistered_token_is_discarded (w : HubWorld) (cb : HubCallback)
    (h : w.hubMap.contains cb.qtObject = false) : w.deliver cb = w := by
  cases cb <;>
    simp only [HubCallback.qtObject] at h <;>
    simp [HubWorld.deliver, lowEnergy_connectionChange, lowEnergy_mtuChanged,
      lowEnergy_servicesDiscovered, lowEnergy_serviceDetailsDiscovered,
      lowEnergy_characteristicRead, lowEnergy_descriptorRead,
      lowEnergy_characteristicWritten, lowEnergy_descriptorWritten,
      lowEnergy_serverDescriptorWritten, lowEnergy_characteristicChanged,
      lowEnergy_serverCharacteristicChanged, lowEnergy_serviceError,
      lowEnergy_advertisementError, lookup_of_not_contains w _ h]

/-- Witness for C10: a characteristicChanged callback carrying token 42 while
only token 41 is registered. -/
theorem unregistered_token_is_discarded_witness :
    sampleHubWorld.deliver (.characteristicChanged 42 3 (some [9])) = sampleHubWorld :=
  unregistered_token_is_discarded sampleHubWorld (.characteristicChanged 42 3 (some [9]))
    (by decide)

/-! ### Registry lemmas -/

theorem filter_of_not_contains (h : QHash Int Nat) (k : Int)
    (hk : h.contains k = false) :
    h.entries.filter (fun e => !decide (e.1 = k)) = h.entries := by
  unfold QHash.contains at hk
  rw [List.filter_eq_self]
  intro e he
  have := List.any_eq_false.mp hk e he
  simpa using this

theorem contains_remove_self (h : QHash Int Nat) (k : Int) :
    (h.remove k).contains k = false := by
  unfold QHash.remove QHash.contains
  rw [List.any_eq_false]
  intro e he
  have := (List.mem_filter.mp he).2
  simpa using this

theorem remove_of_not_contains (h : QHash Int Nat) (k : Int)
    (hk : h.contains k = false) : h.remove k = h := by
  unfold QHash.remove
  rw [filter_of_not_contains h k hk]

theorem insert_of_not_contains (h : QHash Int Nat) (k : Int) (v : Nat)
    (hk : h.contains k = false) : h.insert k v = ⟨(k, v) :: h.entries⟩ := by
  unfold QHash.insert
  rw [filter_of_not_contains h k hk]

theorem drawToken_of_fresh_draw (h : QHash Int Nat) (draws : List Nat)
    (hd : ∃ r ∈ draws, h.contains (Int.ofNat (r % 4294967296)) = false) :
    ∃ t, drawToken h draws = some t ∧ h.contains t = false := by
  induction draws with
  | nil =>
    obtain ⟨r, hr, _⟩ := hd
    simp at hr
  | cons r rest ih =>
    unfold drawToken
    by_cases hc : h.contains (Int.ofNat (r % 4294967296)) = true
    · obtain ⟨r1, hr1, hf⟩ := hd
      have hrest : ∃ r ∈ rest, h.contains (Int.ofNat (r % 4294967296)) = false := by
        rcases List.mem_cons.mp hr1 with heq | hmem
        · subst heq
          rw [hc] at hf
          cases hf
        · exact ⟨r1, hmem, hf⟩
      simp only [hc, Bool.not_true, Bool.false_eq_true, if_false]
      exact ih hrest
    · have hc2 : h.contains (Int.ofNat (r % 4294967296)) = false :=
        Bool.eq_false_iff.mpr hc
      simp only [hc2, Bool.not_false, if_true]
      exact ⟨Int.ofNat (r % 4294967296), rfl, hc2⟩

theorem deliver_of_not_contains (w : HubWorld) (cb : HubCallback)
    (h : w.hubMap.contains cb.qtObject = false) : w.deliver cb = w := by
  cases cb <;>
    simp only [HubCallback.qtObject] at h <;>
    simp [HubWorld.deliver, lowEnergy_connectionChange, lowEnergy_mtuChanged,
      lowEnergy_servicesDiscovered, lowEnergy_serviceDetailsDiscovered,
      lowEnergy_characteristicRead, lowEnergy_descriptorRead,
      lowEnergy_characteristicWritten, lowEnergy_descriptorWritten,
      lowEnergy_serverDescriptorWritten, lowEnergy_characteristicChanged,
      lowEnergy_serverCharacteristicChanged, lowEnergy_serviceError,
      lowEnergy_advertisementError, lookup_of_not_contains w _ h]

theorem hubMap_deliver (w : HubWorld) (cb : HubCallback) :
    (w.deliver cb).hubMap = w.hubMap := by
  cases cb <;>
    simp only [HubWorld.deliver, lowEnergy_connectionChange, lowEnergy_mtuChanged,
      lowEnergy_servicesDiscovered, lowEnergy_serviceDetailsDiscovered,
      lowEnergy_characteristicRead, lowEnergy_descriptorRead,
      lowEnergy_characteristicWritten, lowEnergy_descriptorWritten,
      lowEnergy_serverDescriptorWritten, lowEnergy_characteristicChanged,
      lowEnergy_serverCharacteristicChanged, lowEnergy_serviceError,
      lowEnergy_advertisementError, invokeMethod] <;>
    split_ifs <;> rfl

theorem hubMap_deliverAll (w : HubWorld) (cbs : List HubCallback) :
    (w.deliverAll cbs).hubMap = w.hubMap := by
  induction cbs generalizing w with
  | nil => rfl
  | cons cb rest ih =>
    show ((w.deliver cb).deliverAll rest).hubMap = w.hubMap
    rw [ih, hubMap_deliver]

theorem payloadOf_eq (data : JByteArray) : payloadOf data = data.getD [] := by
  cases data with
  | none => rfl
  | some array => simp [payloadOf, GetByteArrayRegion, GetArrayLength]

/-- C11: constructing a hub whose Java object is valid, with a random source
that yields a token not in the registry at some draw, returns with the hub
registered under a token that was not in the registry before: the registry maps
the token to the new hub, every other token is registered or not as before and
to the same hub, and tokens that were pairwise distinct stay so. -/
theorem construct_registers_fresh_token (w : HubWorld) (this : Nat)
    (jBluetoothLe : JBluetoothLe) (draws : List Nat)
    (hv : jBluetoothLe.isValid = true)
    (hd : ∃ r ∈ draws, w.hubMap.contains (Int.ofNat (r % 4294967296)) = false) :
    ∃ w1 hub, construct w this jBluetoothLe draws = some (w1, hub)
      ∧ hub.addr = this
      ∧ w.hubMap.contains hub.javaToCtoken = false
      ∧ w1.hubMap.contains hub.javaToCtoken = true
      ∧ lookup w1 hub.javaToCtoken = this
      ∧ (∀ t, t ≠ hub.javaToCtoken →
          w1.hubMap.contains t = w.hubMap.contains t ∧ lookup w1 t = lookup w t)
      ∧ (w.hubMap.keys.Nodup → w1.hubMap.keys.Nodup)
      ∧ w1.posted = w.posted := by
  obtain ⟨t, ht, hfresh⟩ := drawToken_of_fresh_draw w.hubMap draws hd
  refine ⟨{ w with hubMap := w.hubMap.insert t this },
    ⟨this, t, { jBluetoothLe with qtObject := t }⟩, ?_, rfl, hfresh, ?_, ?_, ?_, ?_, rfl⟩
  · simp [construct, hv, ht]
  · simp [insert_of_not_contains _ _ _ hfresh, QHash.contains]
  · simp [lookup, insert_of_not_contains _ _ _ hfresh, QHash.value]
  · intro t1 ht1
    have hne : ¬ t = t1 := fun h => ht1 h.symm
    constructor
    · simp [insert_of_not_contains _ _ _ hfresh, QHash.contains, hne]
    · simp [lookup, insert_of_not_contains _ _ _ hfresh, QHash.value, List.find?_cons, hne]
  · intro hnd
    have hnot : t ∉ w.hubMap.keys := by
      intro hmem
      unfold QHash.keys at hmem
      obtain ⟨e, he, hek⟩ := List.mem_map.mp hmem
      have := List.any_eq_false.mp hfresh e he
      simp [hek] at this
    simpa [insert_of_not_contains _ _ _ hfresh, QHash.keys] using
      List.nodup_cons.mpr ⟨hnot, hnd⟩

/-- Witness for C11: the first draw, 41, is registered, the second, 77, is
not. -/
theorem construct_registers_fresh_token_witness :
    ∃ w1 hub, construct sampleHubWorld 8000 ⟨true, 0⟩ [41, 77] = some (w1, hub)
      ∧ hub.addr = 8000
      ∧ sampleHubWorld.hubMap.contains hub.javaToCtoken = false
      ∧ w1.hubMap.contains hub.javaToCtoken = true
      ∧ lookup w1 hub.javaToCtoken = 8000
      ∧ (∀ t, t ≠ hub.javaToCtoken →
          w1.hubMap.contains t = sampleHubWorld.hubMap.contains t
            ∧ lookup w1 t = lookup sampleHubWorld t)
      ∧ (sampleHubWorld.hubMap.keys.Nodup → w1.hubMap.keys.Nodup)
      ∧ w1.posted = sampleHubWorld.posted :=
  construct_registers_fresh_token sampleHubWorld 8000 ⟨true, 0⟩ [41, 77] rfl
    ⟨77, by decide, by decide⟩

theorem contains_remove_of_not_contains (h : QHash Int Nat) (k t : Int)
    (ht : h.contains t = false) : (h.remove k).contains t = false := by
  unfold QHash.remove QHash.contains at *
  rw [List.any_eq_false] at ht ⊢
  intro e he
  exact ht e (List.mem_filter.mp he).1

theorem contains_insert_of_ne (h : QHash Int Nat) (k t : Int) (v : Nat)
    (hne : k ≠ t) (ht : h.contains t = false) : (h.insert k v).contains t = false := by
  have hrem := contains_remove_of_not_contains h k t ht
  unfold QHash.remove QHash.contains at hrem
  unfold QHash.insert QHash.contains
  simp only [List.any_cons, Bool.or_eq_false_iff, decide_eq_false_iff_not]
  exact ⟨hne, hrem⟩

theorem step_keeps_token_absent (w : HubWorld) (t : Int) (ev : HubEvent)
    (ht : w.hubMap.contains t = false) (hno : w.registersUnder t ev = false) :
    (w.step ev).hubMap.contains t = false := by
  cases ev with
  | callback cb =>
    show (w.deliver cb).hubMap.contains t = false
    rw [hubMap_deliver]
    exact ht
  | destroyed hub => exact contains_remove_of_not_contains w.hubMap hub.javaToCtoken t ht
  | constructed this j draws =>
    simp only [HubWorld.registersUnder] at hno
    simp only [HubWorld.step]
    unfold construct at hno ⊢
    by_cases hv : j.isValid = true
    · simp only [hv, Bool.not_true, Bool.false_eq_true, if_false] at hno ⊢
      cases hd : drawToken w.hubMap draws with
      | none => simpa [hd] using ht
      | some tok =>
        simp only [hd, Bool.true_and, decide_eq_false_iff_not] at hno
        simp only [hd]
        exact contains_insert_of_ne w.hubMap tok t this hno ht
    · simp only [hv, Bool.not_false, if_true]
      exact ht

theorem run_keeps_token_absent (t : Int) (events : List HubEvent) (w : HubWorld)
    (ht : w.hubMap.contains t = false) (hno : w.reissues t events = false) :
    (w.run events).hubMap.contains t = false := by
  induction events generalizing w with
  | nil => exact ht
  | cons ev rest ih =>
    simp only [HubWorld.reissues, Bool.or_eq_false_iff] at hno
    exact ih (w.step ev) (step_keeps_token_absent w t ev ht hno.1) hno.2

/-- C12 as stated fails: the hub with token 41 is destroyed, a hub at address
8000 is then constructed while the random source yields 41, which is free
again, and the next callback that carries token 41 is not discarded but posted
to the new hub. -/
theorem freed_token_is_reissued :
    (destroy sampleHubWorld sampleHub).hubMap.contains 41 = false
      ∧ construct (destroy sampleHubWorld sampleHub) 8000 ⟨true, 0⟩ [41]
        = some (⟨⟨[(41, 8000)]⟩, []⟩, ⟨8000, 41, ⟨true, 41⟩⟩)
      ∧ ((destroy sampleHubWorld sampleHub).run
          [.constructed 8000 ⟨true, 0⟩ [41], .callback (.connectionChange 41 0 2)]).posted
        = [⟨8000, .connectionUpdated 2 0⟩] := by
  decide

/-- C12 (amended): after a hub is destroyed its token is not in the registry,
and it stays out of it over every sequence of callbacks, destructions and
constructions in which no construction registers a hub under this token again;
a callback that carries the token after such a sequence is discarded: it leaves
registry and posted events as they are. -/
theorem destroyed_hub_token_discarded_until_reissued (w : HubWorld)
    (hub : LowEnergyNotificationHub) (events : List HubEvent) (cb : HubCallback)
    (hno : (destroy w hub).reissues hub.javaToCtoken events = false)
    (h : cb.qtObject = hub.javaToCtoken) :
    (destroy w hub).hubMap.contains hub.javaToCtoken = false
      ∧ ((destroy w hub).run events).hubMap.contains hub.javaToCtoken = false
      ∧ ((destroy w hub).run events).deliver cb = (destroy w hub).run events := by
  have hgone : (destroy w hub).hubMap.contains hub.javaToCtoken = false :=
    contains_remove_self w.hubMap hub.javaToCtoken
  have hlater := run_keeps_token_absent hub.javaToCtoken events (destroy w hub) hgone hno
  refine ⟨hgone, hlater, ?_⟩
  apply deliver_of_not_contains
  rw [h]
  exact hlater

/-- Witness for C12 (amended): the hub with token 41 is destroyed, a callback for
another token runs, a hub is constructed under token 77 after a first draw of
a registered token, another hub is destroyed, then a callback for token 41
runs. -/
theorem destroyed_hub_token_discarded_until_reissued_witness :
    (destroy ⟨⟨[(41, 7000), (5, 7001)]⟩, []⟩ sampleHub).hubMap.contains 41 = false
      ∧ ((destroy ⟨⟨[(41, 7000), (5, 7001)]⟩, []⟩ sampleHub).run
          [.callback (.mtuChanged 5 23), .constructed 8000 ⟨true, 0⟩ [5, 77],
           .destroyed ⟨7001, 5, ⟨true, 5⟩⟩]).hubMap.contains 41 = false
      ∧ ((destroy ⟨⟨[(41, 7000), (5, 7001)]⟩, []⟩ sampleHub).run
          [.callback (.mtuChanged 5 23), .constructed 8000 ⟨true, 0⟩ [5, 77],
           .destroyed ⟨7001, 5, ⟨true, 5⟩⟩]).deliver (.connectionChange 41 0 2)
        = (destroy ⟨⟨[(41, 7000), (5, 7001)]⟩, []⟩ sampleHub).run
          [.callback (.mtuChanged 5 23), .constructed 8000 ⟨true, 0⟩ [5, 77],
           .destroyed ⟨7001, 5, ⟨true, 5⟩⟩] :=
  destroyed_hub_token_discarded_until_reissued ⟨⟨[(41, 7000), (5, 7001)]⟩, []⟩ sampleHub
    [.callback (.mtuChanged 5 23), .constructed 8000 ⟨true, 0⟩ [5, 77],
     .destroyed ⟨7001, 5, ⟨true, 5⟩⟩]
    (.connectionChange 41 0 2) (by decide) rfl

/-- C13 as stated fails: token 41 is registered, yet a characteristicRead
callback whose service UUID is null and a descriptorRead callback whose
descriptor UUID is null post nothing. -/
theorem registered_token_event_dropped :
    sampleHubWorld.hubMap.contains 41 = true
      ∧ sampleHubWorld.deliver (.characteristicRead 41 noUuidObject 3 uuidObject 2 (some [9]))
        = sampleHubWorld
      ∧ sampleHubWorld.deliver
          (.descriptorRead 41 uuidObject uuidObject 4 noUuidObject (some [9]))
        = sampleHubWorld := by
  decide

/-- C13 (amended): for a callback of any kind whose token is registered to a
hub, exactly one queued invocation is posted, to that hub, and the registry is
left as it is, unless the callback is a characteristicRead or descriptorRead
with a null UUID among those it tests, which posts nothing. -/
theorem registered_token_is_marshaled (w : HubWorld) (cb : HubCallback) (hub : Nat)
    (hhub : lookup w cb.qtObject = hub) (hnn : hub ≠ 0) :
    (cb.hasNullUuid = false →
        ∃ call, (w.deliver cb).posted = w.posted ++ [⟨hub, call⟩]
          ∧ (w.deliver cb).hubMap = w.hubMap)
      ∧ (cb.hasNullUuid = true → w.deliver cb = w) := by
  cases cb
  case characteristicRead t sU h cU p d =>
    simp only [HubCallback.qtObject] at hhub
    by_cases h1 : sU.uuid = 0 <;> by_cases h2 : cU.uuid = 0 <;>
      simp [HubWorld.deliver, HubCallback.hasNullUuid, lowEnergy_characteristicRead,
        invokeMethod, hhub, hnn, h1, h2]
  case descriptorRead t sU cU h dU d =>
    simp only [HubCallback.qtObject] at hhub
    by_cases h1 : sU.uuid = 0 <;> by_cases h2 : cU.uuid = 0 <;>
      by_cases h3 : dU.uuid = 0 <;>
      simp [HubWorld.deliver, HubCallback.hasNullUuid, lowEnergy_descriptorRead,
        invokeMethod, hhub, hnn, h1, h2, h3]
  all_goals
    simp only [HubCallback.qtObject] at hhub
    simp [HubWorld.deliver, HubCallback.hasNullUuid, lowEnergy_connectionChange,
      lowEnergy_mtuChanged, lowEnergy_servicesDiscovered,
      lowEnergy_serviceDetailsDiscovered, lowEnergy_characteristicWritten,
      lowEnergy_descriptorWritten, lowEnergy_serverDescriptorWritten,
      lowEnergy_characteristicChanged, lowEnergy_serverCharacteristicChanged,
      lowEnergy_serviceError, lowEnergy_advertisementError, invokeMethod, hhub, hnn]

/-- Witness for C13 (amended): a characteristicRead callback with both UUIDs
set, and one with a null service UUID, for the registered token 41. -/
theorem registered_token_is_marshaled_witness :
    (∃ call,
        (sampleHubWorld.deliver
            (.characteristicRead 41 uuidObject 3 uuidObject 2 (some [9]))).posted
          = sampleHubWorld.posted ++ [⟨7000, call⟩]
        ∧ (sampleHubWorld.deliver
            (.characteristicRead 41 uuidObject 3 uuidObject 2 (some [9]))).hubMap
          = sampleHubWorld.hubMap)
      ∧ sampleHubWorld.deliver (.characteristicRead 41 noUuidObject 3 uuidObject 2 (some [9]))
        = sampleHubWorld :=
  ⟨(registered_token_is_marshaled sampleHubWorld
      (.characteristicRead 41 uuidObject 3 uuidObject 2 (some [9])) 7000 rfl
      (by decide)).1 (by decide),
   (registered_token_is_marshaled sampleHubWorld
      (.characteristicRead 41 noUuidObject 3 uuidObject 2 (some [9])) 7000 rfl
      (by decide)).2 (by decide)⟩

/-- C14: for a token registered to a hub, lowEnergy_characteristicChanged appends
exactly one characteristicChanged event for that hub to the posted events,
whatever these are, with the handle it was given and with the bytes of the
array as payload, the empty payload for the null reference; the registry is
left as it is. -/
theorem characteristicChanged_posts_one_event (w : HubWorld) (qtObject : Int) (hub : Nat)
    (charHandle : Int) (data : JByteArray)
    (hhub : lookup w qtObject = hub) (hnn : hub ≠ 0) :
    lowEnergy_characteristicChanged w qtObject charHandle data
      = { w with posted :=
            w.posted ++ [⟨hub, .characteristicChanged charHandle (data.getD [])⟩] } := by
  subst hhub
  simp [lowEnergy_characteristicChanged, invokeMethod, hnn, payloadOf_eq]

/-- Witness for C14: the array `[0x09]` and the null reference, with another
event already posted. -/
theorem characteristicChanged_posts_one_event_witness :
    lowEnergy_characteristicChanged
        ⟨⟨[(41, 7000)]⟩, [⟨7000, .mtuChanged 23⟩]⟩ 41 3 (some [9])
        = ⟨⟨[(41, 7000)]⟩, [⟨7000, .mtuChanged 23⟩, ⟨7000, .characteristicChanged 3 [9]⟩]⟩
      ∧ lowEnergy_characteristicChanged
          ⟨⟨[(41, 7000)]⟩, [⟨7000, .mtuChanged 23⟩]⟩ 41 3 none
        = ⟨⟨[(41, 7000)]⟩, [⟨7000, .mtuChanged 23⟩, ⟨7000, .characteristicChanged 3 []⟩]⟩ :=
  ⟨characteristicChanged_posts_one_event
      ⟨⟨[(41, 7000)]⟩, [⟨7000, .mtuChanged 23⟩]⟩ 41 7000 3 (some [9]) rfl (by decide),
   characteristicChanged_posts_one_event
      ⟨⟨[(41, 7000)]⟩, [⟨7000, .mtuChanged 23⟩]⟩ 41 7000 3 none rfl (by decide)⟩

/-- C19: evaluation of the schedule in which the callback thread has looked up
the hub of token 41 and released the lock, the destructor of that hub then runs
on another thread, and the callback thread goes on: the hub is no longer
registered, and the event is posted to it all the same.  Run without
interruption the two parts are the callback itself. -/
theorem event_posted_to_destroyed_hub :
    lowEnergy_connectionChange sampleHubWorld 41 0 2
        = connectionChange_unlocked sampleHubWorld
            (connectionChange_locked sampleHubWorld 41) 0 2
      ∧ (destroy sampleHubWorld sampleHub).hubMap.contains 41 = false
      ∧ (connectionChange_unlocked (destroy sampleHubWorld sampleHub)
            (connectionChange_locked sampleHubWorld 41) 0 2).posted
        = [⟨7000, .connectionUpdated 2 0⟩] := by
  decide

/-- C20: deregistering a token that is not registered leaves the registry as it
is, so destroying a hub twice gives the same registry as destroying it once. -/
theorem deregistration_idempotent (w : HubWorld) (hub : LowEnergyNotificationHub) :
    (w.hubMap.contains hub.javaToCtoken = false → destroy w hub = w)
      ∧ destroy (destroy w hub) hub = destroy w hub := by
  have key : ∀ w1 : HubWorld, w1.hubMap.contains hub.javaToCtoken = false →
      destroy w1 hub = w1 := by
    intro w1 h1
    unfold destroy
    rw [remove_of_not_contains _ _ h1]
  exact ⟨key w, key (destroy w hub) (contains_remove_self w.hubMap hub.javaToCtoken)⟩

/-- Witness for C20: a hub with token 42, which is not registered, and the hub
with token 41, which is. -/
theorem deregistration_idempotent_witness :
    destroy sampleHubWorld ⟨7001, 42, ⟨true, 42⟩⟩ = sampleHubWorld
      ∧ destroy (destroy sampleHubWorld sampleHub) sampleHub
        = destroy sampleHubWorld sampleHub :=
  ⟨(deregistration_idempotent sampleHubWorld ⟨7001, 42, ⟨true, 42⟩⟩).1 (by decide),
   (deregistration_idempotent sampleHubWorld sampleHub).2⟩

/-- C28: evaluation for a hub that is registered under token 0, which is a value
the random source can yield, and a second hub whose Java object is invalid: the
second hub is not registered and keeps token 0, and destroying it removes the
entry of the first hub, which is no longer found under its token. -/
theorem destroying_unregistered_hub_removes_other_entry :
    construct ⟨⟨[]⟩, []⟩ 7000 ⟨true, 0⟩ [0]
        = some (⟨⟨[(0, 7000)]⟩, []⟩, ⟨7000, 0, ⟨true, 0⟩⟩)
      ∧ construct ⟨⟨[(0, 7000)]⟩, []⟩ 8000 ⟨false, 0⟩ []
        = some (⟨⟨[(0, 7000)]⟩, []⟩, ⟨8000, 0, ⟨false, 0⟩⟩)
      ∧ lookup ⟨⟨[(0, 7000)]⟩, []⟩ 0 = 7000
      ∧ destroy ⟨⟨[(0, 7000)]⟩, []⟩ ⟨8000, 0, ⟨false, 0⟩⟩ = ⟨⟨[]⟩, []⟩
      ∧ lookup (destroy ⟨⟨[(0, 7000)]⟩, []⟩ ⟨8000, 0, ⟨false, 0⟩⟩) 0 = 0 := by
  decide

end HubResults

/-! ## The GATT job queue: results -/

section QueueResults

theorem inFlightAfter_append (log : List TransportEvent) (ev : TransportEvent) :
    inFlightAfter (log ++ [ev])
      = match inFlightAfter log, ev with
        | some false, .request _ => some true
        | some true, .completion => some false
        | _, _ => none := by
  simp [inFlightAfter, List.foldl_append]

theorem reachable_invariant (q : JobQueue) (h : JobQueue.Reachable q) :
    inFlightAfter q.transport = some q.jobPending
      ∧ q.jobPending = !q.jobs.isEmpty := by
  induction h with
  | initial => exact ⟨rfl, rfl⟩
  | enqueue q job _ ih =>
    obtain ⟨hlog, hpend⟩ := ih
    obtain ⟨jobs, pending, log⟩ := q
    simp only at hlog hpend
    subst hpend
    cases jobs with
    | nil =>
      simp [JobQueue.enqueue, JobQueue.dispatch, inFlightAfter_append] at hlog ⊢
      simp [hlog]
    | cons j rest =>
      simp [JobQueue.enqueue] at hlog ⊢
      exact hlog
  | on_completed q _ hp ih =>
    obtain ⟨hlog, _⟩ := ih
    obtain ⟨jobs, pending, log⟩ := q
    simp only at hlog hp
    subst hp
    cases hj : jobs.tail with
    | nil =>
      simp [JobQueue.on_completed, hj, inFlightAfter_append, hlog]
    | cons j rest =>
      have hsplit : log ++ [TransportEvent.completion, TransportEvent.request j]
          = (log ++ [TransportEvent.completion]) ++ [TransportEvent.request j] := by
        simp
      simp only [JobQueue.on_completed, JobQueue.dispatch, hj, List.append_assoc,
        List.singleton_append, List.isEmpty_cons, Bool.not_false, and_true]
      rw [hsplit, inFlightAfter_append, inFlightAfter_append, hlog]

/-- C18: in every state the job queue can reach, the transport has never been
handed a request while another one was in flight, and a request is in flight
exactly when `jobPending` is set. -/
theorem jobQueue_single_flight (q : JobQueue) (h : JobQueue.Reachable q) :
    singleFlight q.transport = true ∧ inFlightAfter q.transport = some q.jobPending := by
  have hinv := (reachable_invariant q h).1
  exact ⟨by simp [singleFlight, hinv], hinv⟩

/-- Witness for C18: two jobs are enqueued and the first one completes. -/
theorem jobQueue_single_flight_witness :
    singleFlight
        (((JobQueue.initial.enqueue (sampleJob 3)).enqueue (sampleJob 5)).on_completed).transport
        = true
      ∧ inFlightAfter
          (((JobQueue.initial.enqueue (sampleJob 3)).enqueue
            (sampleJob 5)).on_completed).transport
        = some (((JobQueue.initial.enqueue (sampleJob 3)).enqueue
            (sampleJob 5)).on_completed).jobPending :=
  jobQueue_single_flight _
    (.on_completed _ (.enqueue _ _ (.enqueue _ _ .initial)) (by decide))

end QueueResults

/-! ## registerDevice: results -/

section AgentResults

theorem address_mergeInto (iter info : QBluetoothDeviceInfo) :
    (mergeInto iter info).address = iter.address := by
  unfold mergeInto
  simp only
  split_ifs <;> rfl

theorem registerLoop_none (info : QBluetoothDeviceInfo) (l : List QBluetoothDeviceInfo) :
    registerLoop info l = none ↔ info.address ∉ l.map QBluetoothDeviceInfo.address := by
  induction l with
  | nil => simp [registerLoop]
  | cons iter rest ih =>
    unfold registerLoop
    by_cases h : iter.address = info.address
    · simp [h]
    · have hne : ¬ info.address = iter.address := fun e => h e.symm
      cases hr : registerLoop info rest with
      | none => simpa [h, hne, hr] using ih.mp hr
      | some r =>
        have : ¬ info.address ∉ rest.map QBluetoothDeviceInfo.address := by
          intro hn
          rw [ih.mpr hn] at hr
          cases hr
        simpa [h, hne, hr] using this

theorem registerLoop_some (info : QBluetoothDeviceInfo) (l l1 : List QBluetoothDeviceInfo)
    (h : registerLoop info l = some l1) :
    l1.map QBluetoothDeviceInfo.address = l.map QBluetoothDeviceInfo.address
      ∧ l1.length = l.length := by
  induction l generalizing l1 with
  | nil => simp [registerLoop] at h
  | cons iter rest ih =>
    unfold registerLoop at h
    by_cases ha : iter.address = info.address
    · simp only [ha, if_true, Option.some.injEq] at h
      subst h
      simp [address_mergeInto]
    · simp only [ha, if_false] at h
      cases hr : registerLoop info rest with
      | none => simp [hr] at h
      | some r =>
        simp only [hr, Option.some.injEq] at h
        subst h
        obtain ⟨h1, h2⟩ := ih r hr
        simp [h1, h2]

/-- C26: registerDevice keeps pairwise distinct addresses pairwise distinct; for
an address that is not in the list it appends the device, so the list grows by
one entry, and emits deviceDiscovered once; for an address that is in the list
it leaves the length, the addresses and the emitted signals as they were. -/
theorem registerDevice_keeps_addresses_distinct (a : QBluetoothDeviceDiscoveryAgentPrivate)
    (info : QBluetoothDeviceInfo) :
    ((a.discoveredDevices.map QBluetoothDeviceInfo.address).Nodup →
        ((a.registerDevice info).discoveredDevices.map QBluetoothDeviceInfo.address).Nodup)
      ∧ (info.address ∉ a.discoveredDevices.map QBluetoothDeviceInfo.address →
          (a.registerDevice info).discoveredDevices = a.discoveredDevices ++ [info]
            ∧ (a.registerDevice info).discoveredDevices.length
                = a.discoveredDevices.length + 1
            ∧ (a.registerDevice info).emitted = a.emitted ++ [.deviceDiscovered info])
      ∧ (info.address ∈ a.discoveredDevices.map QBluetoothDeviceInfo.address →
          (a.registerDevice info).discoveredDevices.length = a.discoveredDevices.length
            ∧ (a.registerDevice info).discoveredDevices.map QBluetoothDeviceInfo.address
                = a.discoveredDevices.map QBluetoothDeviceInfo.address
            ∧ (a.registerDevice info).emitted = a.emitted) := by
  unfold QBluetoothDeviceDiscoveryAgentPrivate.registerDevice
  cases hr : registerLoop info a.discoveredDevices with
  | none =>
    have hnew := (registerLoop_none info a.discoveredDevices).mp hr
    refine ⟨fun hnd => ?_, fun _ => ⟨rfl, by simp, rfl⟩, fun hin => absurd hin hnew⟩
    simp only [List.map_append, List.map_cons, List.map_nil]
    rw [List.nodup_append]
    refine ⟨hnd, List.nodup_singleton _, ?_⟩
    intro x hx hy
    rw [List.mem_singleton] at hy
    subst hy
    exact hnew hx
  | some l1 =>
    obtain ⟨h1, h2⟩ := registerLoop_some info a.discoveredDevices l1 hr
    have hold : ¬ info.address ∉ a.discoveredDevices.map QBluetoothDeviceInfo.address := by
      intro hn
      rw [(registerLoop_none info a.discoveredDevices).mpr hn] at hr
      cases hr
    refine ⟨fun hnd => ?_, fun hn => absurd hn hold, fun _ => ⟨h2, h1, rfl⟩⟩
    simpa [h1] using hnd

/-- Witness for C26: a new address, and an address that is in the list. -/
theorem registerDevice_keeps_addresses_distinct_witness :
    ((sampleAgent.registerDevice ⟨2, "b", [0x1800], 1⟩).discoveredDevices
        = sampleAgent.discoveredDevices ++ [⟨2, "b", [0x1800], 1⟩]
      ∧ (sampleAgent.registerDevice ⟨2, "b", [0x1800], 1⟩).discoveredDevices.length
        = sampleAgent.discoveredDevices.length + 1
      ∧ (sampleAgent.registerDevice ⟨2, "b", [0x1800], 1⟩).emitted
        = sampleAgent.emitted ++ [.deviceDiscovered ⟨2, "b", [0x1800], 1⟩])
    ∧ ((sampleAgent.registerDevice ⟨1, "a", [0x1800], 2⟩).discoveredDevices.length
        = sampleAgent.discoveredDevices.length
      ∧ (sampleAgent.registerDevice ⟨1, "a", [0x1800], 2⟩).discoveredDevices.map
          QBluetoothDeviceInfo.address
        = sampleAgent.discoveredDevices.map QBluetoothDeviceInfo.address
      ∧ (sampleAgent.registerDevice ⟨1, "a", [0x1800], 2⟩).emitted = sampleAgent.emitted) :=
  ⟨(registerDevice_keeps_addresses_distinct sampleAgent ⟨2, "b", [0x1800], 1⟩).2.1
      (by decide),
   (registerDevice_keeps_addresses_distinct sampleAgent ⟨1, "a", [0x1800], 2⟩).2.2
      (by decide)⟩

/-- When the stored service UUIDs are pairwise distinct the merge keeps every
stored UUID and takes every incoming one. -/
theorem mergeInto_keeps_uuids_of_nodup (iter info : QBluetoothDeviceInfo)
    (hnd : iter.serviceUuids.Nodup) (u : QBluetoothUuid)
    (hu : u ∈ iter.serviceUuids ∨ u ∈ info.serviceUuids) :
    u ∈ (mergeInto iter info).serviceUuids := by
  have hD : u ∈ (iter.serviceUuids ++ info.serviceUuids).dedup := by
    rw [List.mem_dedup, List.mem_append]
    exact hu
  by_cases hlen : iter.serviceUuids.length = (iter.serviceUuids ++ info.serviceUuids).dedup.length
  · have hsub : iter.serviceUuids ⊆ (iter.serviceUuids ++ info.serviceUuids).dedup := by
      intro x hx
      rw [List.mem_dedup, List.mem_append]
      exact Or.inl hx
    have hperm := (List.subperm_of_subset hnd hsub).perm_of_length_le (le_of_eq hlen.symm)
    have hold : u ∈ iter.serviceUuids := hperm.mem_iff.mpr hD
    unfold mergeInto
    simp only [hlen, ne_eq, not_true_eq_false, if_false]
    split_ifs <;> exact hold
  · unfold mergeInto
    simp only [hlen, ne_eq, not_false_eq_true, if_true]
    split_ifs <;> exact hD

/-- C27: evaluation for a stored entry whose service UUIDs are 0x180F twice, as
a device with two instances of one service reports them, and an incoming device
with the same address and the service UUID 0x1800: the merged set has two
elements, as many as the stored list, so the stored UUIDs are not replaced and
0x1800 is not among them afterwards. -/
theorem registerDevice_merge_loses_uuid :
    (QBluetoothDeviceDiscoveryAgentPrivate.registerDevice
        ⟨[⟨1, "a", [0x180F, 0x180F], 1⟩], []⟩ ⟨1, "a", [0x1800], 1⟩).discoveredDevices
        = [(⟨1, "a", [0x180F, 0x180F], 1⟩ : QBluetoothDeviceInfo)]
      ∧ (0x1800 : QBluetoothUuid) ∉ ([0x180F, 0x180F] : List QBluetoothUuid) := by
  decide

end AgentResults

/-! ## QWinRTBluetoothDeviceDiscoveryWorker: results -/

section WorkerResults

open QWinRTBluetoothDeviceDiscoveryWorker

theorem requestedModes_gatherMultiple (devices : List DeviceInformation) (mode : Nat)
    (w : QWinRTBluetoothDeviceDiscoveryWorker) :
    (w.gatherMultipleDeviceInformation devices mode).requestedModes = w.requestedModes := by
  induction devices generalizing w with
  | nil => rfl
  | cons device rest ih =>
    unfold gatherMultipleDeviceInformation
    by_cases h : device.getAtOk = true
    · simp only [h, Bool.not_true, Bool.false_eq_true, if_false]
      rw [ih]
      unfold gatherDeviceInformation leBluetoothInfoFromDeviceIdAsync emitError
      split_ifs <;> rfl
    · simp only [h, Bool.not_false, if_true]
      rfl

theorem requestedModes_discoveryCompleted (w : QWinRTBluetoothDeviceDiscoveryWorker)
    (completed : Bool) (op : DeviceInformationCollection) :
    (w.discoveryCompleted completed op).requestedModes = w.requestedModes := by
  unfold discoveryCompleted onDeviceDiscoveryFinished
  simp only
  split_ifs
  · rfl
  · rfl
  · rw [requestedModes_gatherMultiple]
  · rfl

theorem requestedModes_deviceFromIdCompleted (w : QWinRTBluetoothDeviceDiscoveryWorker)
    (completed deviceOk : Bool) :
    (w.deviceFromIdCompleted completed deviceOk).requestedModes = w.requestedModes := by
  unfold deviceFromIdCompleted onPairedBluetoothLEDeviceFoundAsync emitError
  simp only
  split_ifs <;> rfl

theorem workerFrame_decrement (w : QWinRTBluetoothDeviceDiscoveryWorker) (ok : Bool) :
    workerFrame (w.decrementPendingDevicesCountAndCheckFinished ok) = workerFrame w := by
  unfold decrementPendingDevicesCountAndCheckFinished finishDiscovery stop emitError
  simp only
  split_ifs <;> rfl

theorem workerFrame_onDeviceEnumerationCompleted (w : QWinRTBluetoothDeviceDiscoveryWorker)
    (watcherId : Int) (ok : Bool) :
    workerFrame (w.onDeviceEnumerationCompleted watcherId ok) = workerFrame w := by
  unfold onDeviceEnumerationCompleted finishDiscovery stop emitError
  simp only
  split_ifs <;> rfl

theorem workerFrame_finishDiscovery (w : QWinRTBluetoothDeviceDiscoveryWorker) (ok : Bool) :
    workerFrame (w.finishDiscovery ok) = workerFrame w := by
  unfold finishDiscovery stop emitError
  simp only
  split_ifs <;> rfl

theorem workerFrame_stop (w : QWinRTBluetoothDeviceDiscoveryWorker) (ok : Bool) :
    workerFrame (w.stop ok) = workerFrame w := by
  unfold stop emitError
  simp only
  split_ifs <;> rfl

theorem workerFrame_onBluetoothDeviceFound (w : QWinRTBluetoothDeviceDiscoveryWorker)
    (watcherId : Int) : workerFrame (w.onBluetoothDeviceFound watcherId) = workerFrame w := by
  unfold onBluetoothDeviceFound getClassicDeviceFromId
  split_ifs <;> rfl

theorem requestedModes_startDeviceDiscovery (w : QWinRTBluetoothDeviceDiscoveryWorker)
    (mode : Nat) (staticsOk findAllOk putCompletedOk : Bool) :
    (w.startDeviceDiscovery mode staticsOk findAllOk putCompletedOk).requestedModes
      = w.requestedModes := by
  unfold startDeviceDiscovery emitError
  split_ifs <;> rfl

theorem requestedModes_setupLEDeviceWatcher (w : QWinRTBluetoothDeviceDiscoveryWorker)
    (watcherOk : Bool) : (w.setupLEDeviceWatcher watcherOk).requestedModes = w.requestedModes := by
  unfold setupLEDeviceWatcher emitError
  split_ifs <;> rfl

theorem worker_invariant_start (methods : Nat)
    (factoryOk staticsOk findAllOk putCompletedOk watcherOk classicWatcherOk : Bool) :
    ((construct factoryOk).start methods staticsOk findAllOk putCompletedOk watcherOk
        classicWatcherOk).requestedModes = methods % 256
      ∧ (methods % 256 &&& LowEnergyMethod = 0 →
          ((construct factoryOk).start methods staticsOk findAllOk putCompletedOk watcherOk
              classicWatcherOk).discoveryOperations = 0
            ∧ ((construct factoryOk).start methods staticsOk findAllOk putCompletedOk
                watcherOk classicWatcherOk).deviceFromIdOperations = 0
            ∧ ((construct factoryOk).start methods staticsOk findAllOk putCompletedOk
                watcherOk classicWatcherOk).leInfoFromIdRuns = 0) := by
  by_cases hle : methods % 256 &&& LowEnergyMethod = 0
  · by_cases hcl : methods % 256 &&& ClassicMethod = 0
    · cases factoryOk <;> simp [start, hle, hcl, construct, emitError]
    · cases factoryOk <;> cases classicWatcherOk <;>
        simp [start, hle, hcl, construct, emitError]
  · by_cases hcl : methods % 256 &&& ClassicMethod = 0
    · simp [start, hle, hcl, requestedModes_startDeviceDiscovery,
        requestedModes_setupLEDeviceWatcher]
    · cases classicWatcherOk <;>
        simp [start, hle, hcl, emitError, requestedModes_startDeviceDiscovery,
          requestedModes_setupLEDeviceWatcher]

/-- The invariant of the reachable states: the requested modes are those of the
start, and without the Low Energy method no operation of the Low Energy branch
is outstanding and leBluetoothInfoFromDeviceIdAsync has not run. -/
theorem worker_invariant (methods : Nat) (w : QWinRTBluetoothDeviceDiscoveryWorker)
    (h : Reachable methods w) :
    w.requestedModes = methods % 256
      ∧ (methods % 256 &&& LowEnergyMethod = 0 →
          w.discoveryOperations = 0 ∧ w.deviceFromIdOperations = 0
            ∧ w.leInfoFromIdRuns = 0) := by
  have frame : ∀ w1 w2 : QWinRTBluetoothDeviceDiscoveryWorker, workerFrame w2 = workerFrame w1 →
      (w1.requestedModes = methods % 256
        ∧ (methods % 256 &&& LowEnergyMethod = 0 →
            w1.discoveryOperations = 0 ∧ w1.deviceFromIdOperations = 0
              ∧ w1.leInfoFromIdRuns = 0)) →
      (w2.requestedModes = methods % 256
        ∧ (methods % 256 &&& LowEnergyMethod = 0 →
            w2.discoveryOperations = 0 ∧ w2.deviceFromIdOperations = 0
              ∧ w2.leInfoFromIdRuns = 0)) := by
    intro w1 w2 hf hinv
    simp only [workerFrame, Prod.mk.injEq] at hf
    obtain ⟨h1, h2, h3, h4⟩ := hf
    rw [h1, h2, h3, h4]
    exact hinv
  induction h with
  | started factoryOk staticsOk findAllOk putCompletedOk watcherOk classicWatcherOk =>
    exact worker_invariant_start methods factoryOk staticsOk findAllOk putCompletedOk
      watcherOk classicWatcherOk
  | discoveryCompleted w completed op _ hpos ih =>
    obtain ⟨hm, hz⟩ := ih
    refine ⟨by rw [requestedModes_discoveryCompleted, hm], fun hle => ?_⟩
    have := (hz hle).1
    omega
  | deviceFromIdCompleted w completed deviceOk _ hpos ih =>
    obtain ⟨hm, hz⟩ := ih
    refine ⟨by rw [requestedModes_deviceFromIdCompleted, hm], fun hle => ?_⟩
    have := (hz hle).2.1
    omega
  | incrementPendingDevicesCount w _ ih => exact frame w _ rfl ih
  | decrementPendingDevicesCountAndCheckFinished w ok _ ih =>
    exact frame w _ (workerFrame_decrement w ok) ih
  | onBluetoothDeviceFound w watcherId _ ih =>
    exact frame w _ (workerFrame_onBluetoothDeviceFound w watcherId) ih
  | onDeviceEnumerationCompleted w watcherId ok _ ih =>
    exact frame w _ (workerFrame_onDeviceEnumerationCompleted w watcherId ok) ih
  | finishDiscovery w ok _ ih => exact frame w _ (workerFrame_finishDiscovery w ok) ih
  | stop w ok _ ih => exact frame w _ (workerFrame_stop w ok) ih
  | emitError w _ ih => exact frame w _ rfl ih

/-- C25: in every state of a worker started with some methods, the requested
modes are those of the start; if leBluetoothInfoFromDeviceIdAsync has run, or a
device discovery whose completion runs it is outstanding, the Low Energy method
is among them; and while it is among them
decrementPendingDevicesCountAndCheckFinished only decrements the count and
onDeviceEnumerationCompleted emits nothing, so neither calls finishDiscovery. -/
theorem le_requested_blocks_finish (methods : Nat)
    (w : QWinRTBluetoothDeviceDiscoveryWorker) (h : Reachable methods w) :
    w.requestedModes = methods % 256
      ∧ (0 < w.leInfoFromIdRuns → w.requestedModes &&& LowEnergyMethod ≠ 0)
      ∧ (0 < w.discoveryOperations → w.requestedModes &&& LowEnergyMethod ≠ 0)
      ∧ (w.requestedModes &&& LowEnergyMethod ≠ 0 →
          (∀ ok, w.decrementPendingDevicesCountAndCheckFinished ok
              = { w with m_pendingPairedDevices := w.m_pendingPairedDevices - 1 })
            ∧ (∀ watcherId ok,
                (w.onDeviceEnumerationCompleted watcherId ok).emitted = w.emitted)) := by
  obtain ⟨hm, hz⟩ := worker_invariant methods w h
  refine ⟨hm, fun hruns hle => ?_, fun hops hle => ?_, fun hle => ⟨fun ok => ?_, fun id ok => ?_⟩⟩
  · rw [hm] at hle
    have := (hz hle).2.2
    omega
  · rw [hm] at hle
    have := (hz hle).1
    omega
  · unfold decrementPendingDevicesCountAndCheckFinished
    simp [hle]
  · unfold onDeviceEnumerationCompleted
    simp only
    split_ifs <;> simp_all

/-- Witness for C25: a worker started for the Low Energy method, after its
discovery has run leBluetoothInfoFromDeviceIdAsync once. -/
theorem le_requested_blocks_finish_witness :
    0 < sampleWorker.leInfoFromIdRuns
      ∧ sampleWorker.requestedModes &&& LowEnergyMethod ≠ 0
      ∧ ∀ ok, sampleWorker.decrementPendingDevicesCountAndCheckFinished ok
          = { sampleWorker with
                m_pendingPairedDevices := sampleWorker.m_pendingPairedDevices - 1 } :=
  ⟨by decide,
   (le_requested_blocks_finish LowEnergyMethod sampleWorker
      (.discoveryCompleted _ true _ (.started true true true true true true)
        (by decide))).2.1 (by decide),
   ((le_requested_blocks_finish LowEnergyMethod sampleWorker
      (.discoveryCompleted _ true _ (.started true true true true true true)
        (by decide))).2.2.2 (by decide)).1⟩

end WorkerResults

end QtBluetooth
